import Mathlib

/-!
Verification development for the clash-sub-merger repository
(`src/merge_config.py`, `src/server.py`).

Python strings are modelled as lists of characters (`Str`), Python values
(the contents of proxy dicts) as the inductive `PyVal`, and Python dicts as
insertion-ordered association lists (`Dict`).  Python standard-library
routines used by the source (`base64.b64decode`, `str.strip`, `str.split`,
`urllib.parse.urlparse`, `urllib.parse.parse_qs`, `urllib.parse.quote`,
`urllib.parse.unquote`, UTF-8 codecs) are given executable models that follow
the CPython semantics on the inputs the source feeds them; raised exceptions
are modelled with `Option`/`Except`.
-/

namespace ClashMerge

/-- Python `str` is modelled as a list of characters. -/
abbrev Str := List Char

/-- Turn a Lean string literal into the `Str` model. -/
def pstr (s : String) : Str := s.data

/-- Characters treated as whitespace by Python `str.strip()` /
`str.split()` (ASCII subset, which covers every input in this repository). -/
def pyWs (c : Char) : Bool :=
  c == ' ' || c == '\t' || c == '\n' || c == '\r' || c == '\x0b' || c == '\x0c'

/-- Python `str.strip()`. -/
def pstrip (s : Str) : Str :=
  ((s.dropWhile pyWs).reverse.dropWhile pyWs).reverse

/-- Python `str.replace(a, b)` where `a` and `b` are single characters. -/
def replChar (a b : Char) (s : Str) : Str :=
  s.map fun c => if c == a then b else c

/-- Core of Python `str.replace(needle, repl)` (leftmost, non-overlapping);
the fuel argument is at least the length of the remaining input. -/
def replGo : Nat → Str → Str → Str → Str
  | 0, _, _, s => s
  | _ + 1, _, _, [] => []
  | k + 1, needle, repl, c :: rest =>
      if needle ≠ [] ∧ needle.isPrefixOf (c :: rest) then
        repl ++ replGo k needle repl ((c :: rest).drop needle.length)
      else
        c :: replGo k needle repl rest

/-- Python `s.replace(needle, repl)` for a non-empty needle. -/
def pyReplace (s needle repl : Str) : Str :=
  replGo (s.length + 1) needle repl s

/-- Python `s.split(sep)` for a single-character separator. -/
def splitChar (sep : Char) : Str → List Str
  | [] => [[]]
  | c :: rest =>
      if c == sep then [] :: splitChar sep rest
      else
        match splitChar sep rest with
        | [] => [[c]]
        | h :: t => (c :: h) :: t

/-- Index of the first occurrence of `needle` as a contiguous substring. -/
def findSub (needle : Str) : Str → Option Nat
  | [] => if needle.isEmpty then some 0 else none
  | c :: rest =>
      if needle.isPrefixOf (c :: rest) then some 0
      else (findSub needle rest).map (· + 1)

/-- Python `needle in hay` (substring containment). -/
def hasSub (hay needle : Str) : Bool :=
  (findSub needle hay).isSome

/-- Python `s.split(sep, 1)` when `sep` occurs in `s`
(`none` when it does not occur). -/
def splitOnceSub (s needle : Str) : Option (Str × Str) :=
  (findSub needle s).map fun i => (s.take i, s.drop (i + needle.length))

/-- Index of the last occurrence of character `c`. -/
def lastIdxOf (c : Char) : Str → Option Nat
  | [] => none
  | d :: rest =>
      match lastIdxOf c rest with
      | some i => some (i + 1)
      | none => if d == c then some 0 else none

/-- Python `s.rsplit(sep, 1)` for a single-character separator that occurs
in `s` (`none` when it does not occur). -/
def rsplitOnceChar (s : Str) (c : Char) : Option (Str × Str) :=
  (lastIdxOf c s).map fun i => (s.take i, s.drop (i + 1))

/-- Python `s.splitlines()` restricted to the line breaks that occur in this
repository's data (`\n`, `\r`, `\r\n`). -/
def splitlinesGo : Str → Str → List Str
  | [], acc => if acc.isEmpty then [] else [acc.reverse]
  | '\r' :: '\n' :: r, acc => acc.reverse :: splitlinesGo r []
  | '\n' :: r, acc => acc.reverse :: splitlinesGo r []
  | '\r' :: r, acc => acc.reverse :: splitlinesGo r []
  | c :: r, acc => splitlinesGo r (c :: acc)

/-- Python `s.splitlines()`. -/
def pySplitlines (s : Str) : List Str := splitlinesGo s []

/-- Python `s.split()` (split on whitespace runs, dropping empty parts). -/
def splitWsGo : Str → Str → List Str
  | [], acc => if acc.isEmpty then [] else [acc.reverse]
  | c :: r, acc =>
      if pyWs c then
        if acc.isEmpty then splitWsGo r [] else acc.reverse :: splitWsGo r []
      else splitWsGo r (c :: acc)

/-- Python `s.split()`. -/
def pySplitWs (s : Str) : List Str := splitWsGo s []

/-- Python `sep.join(parts)`. -/
def joinWith (sep : Str) : List Str → Str
  | [] => []
  | [x] => x
  | x :: y :: t => x ++ sep ++ joinWith sep (y :: t)

/-- ASCII uppercasing, matching Python `str.upper()` on the ASCII/CJK/emoji
alphabet used by this repository (non-ASCII characters are unchanged). -/
def upChar (c : Char) : Char :=
  if 'a' ≤ c ∧ c ≤ 'z' then Char.ofNat (c.toNat - 32) else c

/-- ASCII lowercasing (used by `urlparse().hostname`). -/
def lowChar (c : Char) : Char :=
  if 'A' ≤ c ∧ c ≤ 'Z' then Char.ofNat (c.toNat + 32) else c

/-- Value of a decimal digit string (none if empty or not all digits). -/
def digitsVal (s : Str) : Option Nat :=
  if s.isEmpty ∨ ¬ s.all Char.isDigit then none
  else some (s.foldl (fun n c => n * 10 + (c.toNat - 48)) 0)

/-- Python `int(s)` on strings: optional surrounding whitespace, optional
sign, decimal digits; any other shape raises `ValueError`, modelled `none`. -/
def pyInt? (s : Str) : Option Int :=
  match pstrip s with
  | '+' :: ds => (digitsVal ds).map Int.ofNat
  | '-' :: ds => (digitsVal ds).map fun n => -(n : Int)
  | ds => (digitsVal ds).map Int.ofNat

/-! ### Bytes, UTF-8 and base64 models -/

/-- Bytes are natural numbers below 256. -/
abbrev Bytes := List Nat

/-- UTF-8 encoding of one character (standard 1-4 byte scheme). -/
def utf8EncodeChar (c : Char) : Bytes :=
  let n := c.toNat
  if n < 0x80 then [n]
  else if n < 0x800 then [0xC0 + n / 64, 0x80 + n % 64]
  else if n < 0x10000 then
    [0xE0 + n / 4096, 0x80 + n / 64 % 64, 0x80 + n % 64]
  else
    [0xF0 + n / 262144, 0x80 + n / 4096 % 64, 0x80 + n / 64 % 64, 0x80 + n % 64]

/-- UTF-8 encoding of a string (`str.encode('utf-8')`). -/
def utf8Encode (s : Str) : Bytes := s.flatMap utf8EncodeChar

/-- Is `b` a UTF-8 continuation byte? -/
def utf8Cont (b : Nat) : Bool := 0x80 ≤ b ∧ b ≤ 0xBF

/-- Strict UTF-8 decoding (`bytes.decode('utf-8')`): rejects truncated
sequences, overlong forms, surrogates and out-of-range code points, exactly
as CPython's strict codec does; a failure (raised `UnicodeDecodeError`) is
modelled as `none`. -/
def utf8DecodeStrict : Bytes → Option Str
  | [] => some []
  | b :: r =>
    if b < 0x80 then
      (utf8DecodeStrict r).map fun s => Char.ofNat b :: s
    else if 0xC2 ≤ b ∧ b ≤ 0xDF then
      match r with
      | c :: r' =>
          if utf8Cont c then
            (utf8DecodeStrict r').map fun s =>
              Char.ofNat ((b - 0xC0) * 64 + (c - 0x80)) :: s
          else none
      | [] => none
    else if 0xE0 ≤ b ∧ b ≤ 0xEF then
      match r with
      | c :: d :: r' =>
          let okc :=
            if b = 0xE0 then 0xA0 ≤ c ∧ c ≤ 0xBF
            else if b = 0xED then 0x80 ≤ c ∧ c ≤ 0x9F
            else utf8Cont c = true
          if okc ∧ utf8Cont d then
            (utf8DecodeStrict r').map fun s =>
              Char.ofNat ((b - 0xE0) * 4096 + (c - 0x80) * 64 + (d - 0x80)) :: s
          else none
      | _ => none
    else if 0xF0 ≤ b ∧ b ≤ 0xF4 then
      match r with
      | c :: d :: e :: r' =>
          let okc :=
            if b = 0xF0 then 0x90 ≤ c ∧ c ≤ 0xBF
            else if b = 0xF4 then 0x80 ≤ c ∧ c ≤ 0x8F
            else utf8Cont c = true
          if okc ∧ utf8Cont d ∧ utf8Cont e then
            (utf8DecodeStrict r').map fun s =>
              Char.ofNat ((b - 0xF0) * 262144 + (c - 0x80) * 4096 +
                (d - 0x80) * 64 + (e - 0x80)) :: s
          else none
      | _ => none
    else none

/-- Core of UTF-8 decoding with `errors='replace'`: on a decode error one
byte is consumed and U+FFFD emitted (this model agrees with CPython on
well-formed input, which is all the repository's data exercises).  The fuel
argument is at least the length of the remaining input. -/
def utf8DecodeReplGo : Nat → Bytes → Str
  | 0, _ => []
  | _ + 1, [] => []
  | k + 1, b :: r =>
    if b < 0x80 then Char.ofNat b :: utf8DecodeReplGo k r
    else if 0xC2 ≤ b ∧ b ≤ 0xDF then
      match r with
      | c :: r' =>
          if utf8Cont c then
            Char.ofNat ((b - 0xC0) * 64 + (c - 0x80)) :: utf8DecodeReplGo k r'
          else Char.ofNat 0xFFFD :: utf8DecodeReplGo k r
      | [] => [Char.ofNat 0xFFFD]
    else if 0xE0 ≤ b ∧ b ≤ 0xEF then
      match r with
      | c :: d :: r' =>
          let okc :=
            if b = 0xE0 then 0xA0 ≤ c ∧ c ≤ 0xBF
            else if b = 0xED then 0x80 ≤ c ∧ c ≤ 0x9F
            else utf8Cont c = true
          if okc ∧ utf8Cont d then
            Char.ofNat ((b - 0xE0) * 4096 + (c - 0x80) * 64 + (d - 0x80)) ::
              utf8DecodeReplGo k r'
          else Char.ofNat 0xFFFD :: utf8DecodeReplGo k r
      | _ => Char.ofNat 0xFFFD :: utf8DecodeReplGo k r
    else if 0xF0 ≤ b ∧ b ≤ 0xF4 then
      match r with
      | c :: d :: e :: r' =>
          let okc :=
            if b = 0xF0 then 0x90 ≤ c ∧ c ≤ 0xBF
            else if b = 0xF4 then 0x80 ≤ c ∧ c ≤ 0x8F
            else utf8Cont c = true
          if okc ∧ utf8Cont d ∧ utf8Cont e then
            Char.ofNat ((b - 0xF0) * 262144 + (c - 0x80) * 4096 +
              (d - 0x80) * 64 + (e - 0x80)) :: utf8DecodeReplGo k r'
          else Char.ofNat 0xFFFD :: utf8DecodeReplGo k r
      | _ => Char.ofNat 0xFFFD :: utf8DecodeReplGo k r
    else Char.ofNat 0xFFFD :: utf8DecodeReplGo k r

/-- UTF-8 decoding with `errors='replace'` (`bytes.decode('utf-8',
errors='replace')`). -/
def utf8DecodeRepl (bs : Bytes) : Str := utf8DecodeReplGo (bs.length + 1) bs

/-- Value of a base64 alphabet character (standard alphabet). -/
def b64val (c : Char) : Option Nat :=
  if 'A' ≤ c ∧ c ≤ 'Z' then some (c.toNat - 65)
  else if 'a' ≤ c ∧ c ≤ 'z' then some (c.toNat - 97 + 26)
  else if '0' ≤ c ∧ c ≤ '9' then some (c.toNat - 48 + 52)
  else if c = '+' then some 62
  else if c = '/' then some 63
  else none

/-- Model of CPython's non-strict `binascii.a2b_base64` main loop (which is
what `base64.b64decode(s)` runs): characters outside the alphabet are
discarded; `=` at quad position ≥ 2 accumulates padding and terminates the
decode once the quad is complete; a leftover quad position of 1 raises
"number of data characters cannot be 1 more than a multiple of 4" and a
leftover of 2 or 3 raises "Incorrect padding" (both modelled `none`).
Arguments: input, quad position, bit accumulator, pad count, output
(reversed). -/
def b64go : Str → Nat → Nat → Nat → Bytes → Option Bytes
  | [], 0, _, _, out => some out.reverse
  | [], _, _, _, _ => none
  | c :: r, qp, acc, pads, out =>
    if c = '=' then
      if 2 ≤ qp then
        let pads' := pads + 1
        if 4 ≤ qp + pads' then
          if qp = 2 then some ((acc / 16) :: out).reverse
          else some ((acc / 4 % 256) :: (acc / 1024) :: out).reverse
        else b64go r qp acc pads' out
      else b64go r qp acc pads out
    else
      match b64val c with
      | none => b64go r qp acc pads out
      | some v =>
        let acc' := acc * 64 + v
        if qp = 3 then
          b64go r 0 0 pads ((acc' % 256) :: (acc' / 256 % 256) :: (acc' / 65536) :: out)
        else b64go r (qp + 1) acc' pads out

/-- Python `base64.b64decode(s)` on a `str` argument: the string is first
ASCII-encoded (non-ASCII raises `ValueError`, modelled `none`), then decoded
non-strictly. -/
def b64decodePy (s : Str) : Option Bytes :=
  if s.any (fun c => 128 ≤ c.toNat) then none
  else b64go s 0 0 0 []

/-! ### Python values and dicts -/

/-- A Python value as stored in the proxy dicts this repository builds:
strings, ints, booleans, `None`, lists and nested dicts. -/
inductive PyVal : Type where
  | vstr : Str → PyVal
  | vint : Int → PyVal
  | vbool : Bool → PyVal
  | vnone : PyVal
  | vlist : List PyVal → PyVal
  | vdict : List (Str × PyVal) → PyVal

/-- A Python dict (insertion-ordered association list; CPython dicts
preserve insertion order, and assigning to an existing key keeps its
position). -/
abbrev Dict := List (Str × PyVal)

/-- Dict lookup (`d[k]` respectively `d.get(k)`). -/
def dlookup : Dict → Str → Option PyVal
  | [], _ => none
  | (k', v) :: rest, k => if k' = k then some v else dlookup rest k

/-- Python `d.get(k, dflt)`. -/
def dgetD (d : Dict) (k : Str) (dflt : PyVal) : PyVal :=
  (dlookup d k).getD dflt

/-- Dict assignment `d[k] = v`: overwrite in place if the key exists
(keeping its position), otherwise append at the end. -/
def dset : Dict → Str → PyVal → Dict
  | [], k, v => [(k, v)]
  | (k', v') :: rest, k, v =>
      if k' = k then (k, v) :: rest else (k', v') :: dset rest k v

/-- Python truthiness of a value (`if x:`). -/
def pyTruthy : PyVal → Bool
  | .vstr s => ¬ s.isEmpty
  | .vint n => n ≠ 0
  | .vbool b => b
  | .vnone => false
  | .vlist l => ¬ l.isEmpty
  | .vdict d => ¬ d.isEmpty

/-- Python `str(x)` / f-string formatting for the value shapes the source
interpolates (strings, ints, booleans, `None`). -/
def fmtVal : PyVal → Str
  | .vstr s => s
  | .vint n => pstr (toString n)
  | .vbool b => if b then pstr "True" else pstr "False"
  | .vnone => pstr "None"
  | _ => []

/-- Python `x == s` between an arbitrary value and a string literal
(`False` unless `x` is an equal string). -/
def eqStrVal (v : PyVal) (s : Str) : Bool :=
  match v with
  | .vstr t => t == s
  | _ => false

/-- Python `int(x)` on a decoded JSON value (raises, modelled `none`, on
anything that is not an int, a bool or an int-shaped string). -/
def pyIntOfVal : PyVal → Option Int
  | .vint n => some n
  | .vbool b => some (if b then 1 else 0)
  | .vstr s => pyInt? s
  | _ => none

/-! ### Percent-coding and query strings (`urllib.parse`) -/

/-- Hex digit value. -/
def hexVal (c : Char) : Option Nat :=
  if '0' ≤ c ∧ c ≤ '9' then some (c.toNat - 48)
  else if 'A' ≤ c ∧ c ≤ 'F' then some (c.toNat - 55)
  else if 'a' ≤ c ∧ c ≤ 'f' then some (c.toNat - 87)
  else none

/-- Tokenize a percent-encoded string: `%XX` becomes a byte, anything else
stays a literal character (an invalid escape is kept literally, as
`urllib.parse.unquote` does). -/
def pctTokens : Str → List (Sum Char Nat)
  | [] => []
  | '%' :: a :: b :: r =>
      match hexVal a, hexVal b with
      | some x, some y => Sum.inr (x * 16 + y) :: pctTokens r
      | _, _ => Sum.inl '%' :: pctTokens (a :: b :: r)
  | c :: r => Sum.inl c :: pctTokens r

/-- Collapse the token stream: maximal byte runs are UTF-8 decoded with
`errors='replace'`, literal characters pass through.  The fuel argument is
at least the length of the remaining token list. -/
def pctRenderGo : Nat → List (Sum Char Nat) → Str
  | 0, _ => []
  | _ + 1, [] => []
  | k + 1, Sum.inl c :: r => c :: pctRenderGo k r
  | k + 1, Sum.inr b :: r =>
      let bytes : Bytes :=
        b :: (r.takeWhile fun t => t.isRight).filterMap fun t => t.getRight?
      utf8DecodeRepl bytes ++ pctRenderGo k (r.dropWhile fun t => t.isRight)

/-- Python `urllib.parse.unquote(s)`. -/
def unquote (s : Str) : Str :=
  let ts := pctTokens s
  pctRenderGo (ts.length + 1) ts

/-- Python `urllib.parse.unquote_plus(s)` (`+` becomes a space first). -/
def unquotePlus (s : Str) : Str := unquote (replChar '+' ' ' s)

/-- Characters `urllib.parse.quote` never escapes (letters, digits,
`_.-~`) plus the default `safe='/'`. -/
def quoteSafe (c : Char) : Bool :=
  ('A' ≤ c ∧ c ≤ 'Z') || ('a' ≤ c ∧ c ≤ 'z') || ('0' ≤ c ∧ c ≤ '9') ||
    c = '_' || c = '.' || c = '-' || c = '~' || c = '/'

/-- Uppercase hex digit. -/
def hexDigit (n : Nat) : Char :=
  if n < 10 then Char.ofNat (48 + n) else Char.ofNat (55 + n)

/-- Python `urllib.parse.quote(s)` with the default `safe='/'`:
UTF-8 encode and percent-escape every unsafe byte with uppercase hex. -/
def quotePy (s : Str) : Str :=
  s.flatMap fun c =>
    if quoteSafe c then [c]
    else (utf8EncodeChar c).flatMap fun b => ['%', hexDigit (b / 16), hexDigit (b % 16)]

/-- Append a value to the entry for `k` in a `key → list of values` map,
creating the entry at the end if missing (`parse_qs` accumulation). -/
def qsAdd : List (Str × List Str) → Str → Str → List (Str × List Str)
  | [], k, v => [(k, [v])]
  | (k', vs) :: rest, k, v =>
      if k' = k then (k', vs ++ [v]) :: rest else (k', vs) :: qsAdd rest k v

/-- Python `urllib.parse.parse_qs(q)` with default arguments: split on `&`;
pairs without `=` or with an empty value are dropped
(`keep_blank_values=False`); keys and values are `unquote_plus`-decoded. -/
def parse_qs (q : Str) : List (Str × List Str) :=
  (splitChar '&' q).foldl
    (fun acc pair =>
      match splitOnceSub pair (pstr "=") with
      | some (k, v) => if v.isEmpty then acc else qsAdd acc (unquotePlus k) (unquotePlus v)
      | none => acc)
    []

/-- Lookup in a `parse_qs` result (`params.get(k)` / `k in params`). -/
def qsGet : List (Str × List Str) → Str → Option (List Str)
  | [], _ => none
  | (k', vs) :: rest, k => if k' = k then some vs else qsGet rest k

/-- Python `params.get(k, [dflt])[0]`. -/
def qsGet0 (ps : List (Str × List Str)) (k : Str) (dflt : Str) : Str :=
  match qsGet ps k with
  | some (v :: _) => v
  | some [] => dflt
  | none => dflt

/-! ### `urllib.parse.urlparse` -/

/-- The components of a parsed URL that the source reads. -/
structure UrlRes where
  username : Option Str
  hostname : Option Str
  portRaw : Option Str
  query : Str
deriving DecidableEq

/-- Model of `urllib.parse.urlparse` restricted to URLs of the shape
`scheme://netloc[/path][?query][#fragment]` (every call site in the source
has this shape): the netloc runs to the first `/`, `?` or `#`; the query
sits between the first `?` and a following `#`.  `username` is the part of
the userinfo (before the last `@`) up to its first `:`; `hostname` strips a
bracketed IPv6 literal and lowercases; the raw port text follows the first
`:` after the host (empty port text counts as absent, as CPython's
`_hostinfo` does). -/
def urlparseM (url : Str) : UrlRes :=
  match splitOnceSub url (pstr "://") with
  | none => ⟨none, none, none, []⟩
  | some (_, rest) =>
    let netloc := rest.takeWhile fun c => ¬ (c = '/' ∨ c = '?' ∨ c = '#')
    let after := rest.drop netloc.length
    let query :=
      match splitOnceSub after (pstr "?") with
      | some (_, q) => q.takeWhile (· ≠ '#')
      | none => []
    let (username, hostinfo) :=
      match rsplitOnceChar netloc '@' with
      | some (userinfo, hi) => (some (userinfo.takeWhile (· ≠ ':')), hi)
      | none => (none, netloc)
    let (hostname, portRaw) :=
      match hostinfo with
      | '[' :: t =>
          let h := t.takeWhile (· ≠ ']')
          let aft := (t.drop h.length).drop 1
          (h, match aft with | ':' :: p => some p | _ => none)
      | _ =>
          let h := hostinfo.takeWhile (· ≠ ':')
          let aft := hostinfo.drop h.length
          (h, match aft with | ':' :: p => some p | _ => none)
    { username := username
      hostname := if hostname.isEmpty then none else some (hostname.map lowChar)
      portRaw := match portRaw with | some [] => none | p => p
      query := query }

/-- The `.port` property of a parse result: `None` when absent, otherwise
`int(port, 10)` which raises `ValueError` (modelled `.error`) for
non-numeric text or a value outside 0–65535. -/
def urlPort (u : UrlRes) : Except Unit (Option Int) :=
  match u.portRaw with
  | none => .ok none
  | some p =>
      match pyInt? p with
      | none => .error ()
      | some n => if 0 ≤ n ∧ n ≤ 65535 then .ok (some n) else .error ()

/-! ### `src/merge_config.py` — `SubscriptionParser` -/

namespace SubscriptionParser

/-- `SubscriptionParser.decode_base64` (`src/merge_config.py` lines 32-42;
`src/server.py` lines 310-319 defines a character-for-character identical
copy): strip, map the URL-safe alphabet back to standard, recompute padding
from the length, then `base64.b64decode(...).decode('utf-8')` with a bare
`except` that turns any failure into the empty string. -/
def b64Normalize (content : Str) : Str :=
  let c1 := replChar '_' '/' (replChar '-' '+' (pstrip content))
  let m := c1.length % 4
  if m = 0 then c1 else c1 ++ List.replicate (4 - m) '='

/-- The `base64.b64decode(content).decode('utf-8')` step of
`decode_base64` (the body of its `try`), `none` modelling a raised
exception. -/
def b64TryDecode (s : Str) : Option Str :=
  (b64decodePy s).bind utf8DecodeStrict

/-- `SubscriptionParser.decode_base64`. -/
def decode_base64 (content : Str) : Str :=
  match b64TryDecode (b64Normalize content) with
  | some s => s
  | none => []

/-- Build the `params` dict from `query.split('&')` pairs containing `=`
(later occurrences of a key overwrite earlier ones), as the query loops in
`parse_trojan` / `parse_vless` / `parse_hysteria2` / `parse_ssr` do. -/
def rawParams (query : Str) : Dict :=
  (splitChar '&' query).foldl
    (fun acc pair =>
      match splitOnceSub pair (pstr "=") with
      | some (k, v) => dset acc k (.vstr v)
      | none => acc)
    []

/-- The `main` part of an ss link (`parse_ss` lines 87-92: everything
between `ss://` and an optional `#`). -/
def ssMain (ss_url : Str) : Str :=
  if hasSub ss_url (pstr "#") then
    match splitOnceSub (ss_url.drop 5) (pstr "#") with
    | some (m, _) => m
    | none => ss_url.drop 5
  else ss_url.drop 5

/-- The display name of an ss link (`parse_ss` lines 87-92: the
percent-decoded fragment, defaulting to `"ss"`). -/
def ssRemark (ss_url : Str) : Str :=
  if hasSub ss_url (pstr "#") then
    match splitOnceSub (ss_url.drop 5) (pstr "#") with
    | some (_, r) => unquote r
    | none => pstr "ss"
  else pstr "ss"

/-- The field extraction of `parse_ss` (lines 94-111): either
`base64(method:password)@host:port` or `base64(method:password@host:port)`,
yielding `(method, password, server, port-text)`. -/
def ssParts (main : Str) : Option (Str × Str × Str × Str) :=
  if hasSub main (pstr "@") then
    match splitOnceSub main (pstr "@") with
    | some (user_pass_b64, host_port) =>
        let user_pass := decode_base64 user_pass_b64
        if ¬ hasSub user_pass (pstr ":") then none
        else
          match splitOnceSub user_pass (pstr ":") with
          | some (method, password) =>
              if ¬ hasSub host_port (pstr ":") then none
              else
                match rsplitOnceChar host_port ':' with
                | some (server, port) => some (method, password, server, port)
                | none => none
          | none => none
    | none => none
  else
    let decoded := decode_base64 main
    if ¬ hasSub decoded (pstr "@") then none
    else
      match splitOnceSub decoded (pstr "@") with
      | some (user_pass, host_port) =>
          if ¬ hasSub user_pass (pstr ":") then none
          else
            match splitOnceSub user_pass (pstr ":") with
            | some (method, password) =>
                if ¬ hasSub host_port (pstr ":") then none
                else
                  match rsplitOnceChar host_port ':' with
                  | some (server, port) => some (method, password, server, port)
                  | none => none
            | none => none
      | none => none

/-- `SubscriptionParser.parse_ss` (`src/merge_config.py` lines 80-123).
`none` models both the explicit `return None` exits and the `except`-caught
failures (a non-integer port). -/
def parse_ss (ss_url : Str) : Option Dict :=
  match ssParts (ssMain ss_url) with
  | none => none
  | some (method, password, server, port) =>
      match pyInt? port with
      | none => none
      | some portN =>
          some [(pstr "name", .vstr (ssRemark ss_url)),
                (pstr "type", .vstr (pstr "ss")),
                (pstr "server", .vstr server),
                (pstr "port", .vint portN),
                (pstr "cipher", .vstr method),
                (pstr "password", .vstr password),
                (pstr "udp", .vbool true)]

/-- `SubscriptionParser.parse_trojan` (`src/merge_config.py` lines
125-172). -/
def parse_trojan (trojan_url : Str) : Option Dict :=
  let (main0, remark) :=
    if hasSub trojan_url (pstr "#") then
      match splitOnceSub (trojan_url.drop 9) (pstr "#") with
      | some (m, r) => (m, unquote r)
      | none => (trojan_url.drop 9, pstr "trojan")
    else (trojan_url.drop 9, pstr "trojan")
  let (main, query) :=
    if hasSub main0 (pstr "?") then
      match splitOnceSub main0 (pstr "?") with
      | some (m, q) => (m, q)
      | none => (main0, ([] : Str))
    else (main0, [])
  if ¬ hasSub main (pstr "@") then none
  else
    match splitOnceSub main (pstr "@") with
    | none => none
    | some (password, host_port) =>
        if ¬ hasSub host_port (pstr ":") then none
        else
          match rsplitOnceChar host_port ':' with
          | none => none
          | some (server, port) =>
              match pyInt? port with
              | none => none
              | some portN =>
                  let proxy : Dict :=
                    [(pstr "name", .vstr remark),
                     (pstr "type", .vstr (pstr "trojan")),
                     (pstr "server", .vstr server),
                     (pstr "port", .vint portN),
                     (pstr "password", .vstr password),
                     (pstr "udp", .vbool true),
                     (pstr "skip-cert-verify", .vbool true)]
                  let proxy :=
                    if ¬ query.isEmpty then
                      let params := rawParams query
                      let proxy :=
                        match dlookup params (pstr "sni") with
                        | some v => dset proxy (pstr "sni") v
                        | none => proxy
                      match dlookup params (pstr "allowInsecure") with
                      | some v =>
                          dset proxy (pstr "skip-cert-verify")
                            (.vbool (match v with | .vstr s => s == pstr "1" | _ => false))
                      | none => proxy
                    else proxy
                  some proxy

/-- `SubscriptionParser.parse_vless` (`src/merge_config.py` lines
174-249). -/
def parse_vless (vless_url : Str) : Option Dict :=
  let (main0, remark) :=
    if hasSub vless_url (pstr "#") then
      match splitOnceSub (vless_url.drop 8) (pstr "#") with
      | some (m, r) => (m, unquote r)
      | none => (vless_url.drop 8, pstr "vless")
    else (vless_url.drop 8, pstr "vless")
  let (main, query) :=
    if hasSub main0 (pstr "?") then
      match splitOnceSub main0 (pstr "?") with
      | some (m, q) => (m, q)
      | none => (main0, ([] : Str))
    else (main0, [])
  if ¬ hasSub main (pstr "@") then none
  else
    match splitOnceSub main (pstr "@") with
    | none => none
    | some (uuid, host_port) =>
        if ¬ hasSub host_port (pstr ":") then none
        else
          match rsplitOnceChar host_port ':' with
          | none => none
          | some (server, port) =>
              match pyInt? port with
              | none => none
              | some portN =>
                  let proxy : Dict :=
                    [(pstr "name", .vstr remark),
                     (pstr "type", .vstr (pstr "vless")),
                     (pstr "server", .vstr server),
                     (pstr "port", .vint portN),
                     (pstr "uuid", .vstr uuid),
                     (pstr "udp", .vbool true),
                     (pstr "cipher", .vstr (pstr "auto"))]
                  let params := if ¬ query.isEmpty then rawParams query else []
                  let network :=
                    match dlookup params (pstr "type") with
                    | some (.vstr s) => s
                    | _ => pstr "tcp"
                  let proxy := dset proxy (pstr "network") (.vstr network)
                  let proxy :=
                    if network = pstr "ws" then
                      let ws_opts : Dict := []
                      let ws_opts :=
                        match dlookup params (pstr "path") with
                        | some (.vstr p) => dset ws_opts (pstr "path") (.vstr (unquote p))
                        | _ => ws_opts
                      let ws_opts :=
                        match dlookup params (pstr "host") with
                        | some (.vstr h) =>
                            dset ws_opts (pstr "headers")
                              (.vdict [(pstr "Host", .vstr (unquote h))])
                        | _ => ws_opts
                      dset proxy (pstr "ws-opts") (.vdict ws_opts)
                    else if network = pstr "grpc" then
                      let grpc_opts : Dict :=
                        match dlookup params (pstr "serviceName") with
                        | some (.vstr s) =>
                            [(pstr "grpc-service-name", .vstr (unquote s))]
                        | _ => []
                      dset proxy (pstr "grpc-opts") (.vdict grpc_opts)
                    else proxy
                  let security :=
                    match dlookup params (pstr "security") with
                    | some (.vstr s) => s
                    | _ => []
                  let proxy :=
                    if security = pstr "tls" then
                      let proxy := dset proxy (pstr "tls") (.vbool true)
                      let proxy :=
                        match dlookup params (pstr "sni") with
                        | some v => dset proxy (pstr "servername") v
                        | none => proxy
                      let proxy :=
                        match dlookup params (pstr "fp") with
                        | some v => dset proxy (pstr "client-fingerprint") v
                        | none => proxy
                      match dlookup params (pstr "flow") with
                      | some v => dset proxy (pstr "flow") v
                      | none => proxy
                    else if security = pstr "reality" then
                      let proxy := dset proxy (pstr "tls") (.vbool true)
                      let proxy :=
                        dset proxy (pstr "flow")
                          (dgetD params (pstr "flow") (.vstr (pstr "xtls-rprx-vision")))
                      let proxy :=
                        match dlookup params (pstr "sni") with
                        | some v => dset proxy (pstr "servername") v
                        | none => proxy
                      let proxy :=
                        match dlookup params (pstr "fp") with
                        | some v => dset proxy (pstr "client-fingerprint") v
                        | none => proxy
                      let reality_opts : Dict := []
                      let reality_opts :=
                        match dlookup params (pstr "pbk") with
                        | some v => dset reality_opts (pstr "public-key") v
                        | none => reality_opts
                      let reality_opts :=
                        match dlookup params (pstr "sid") with
                        | some v => dset reality_opts (pstr "short-id") v
                        | none => reality_opts
                      let reality_opts :=
                        match dlookup params (pstr "spx") with
                        | some v => dset reality_opts (pstr "spider-x") v
                        | none => reality_opts
                      dset proxy (pstr "reality-opts") (.vdict reality_opts)
                    else proxy
                  some proxy

/-- `SubscriptionParser.parse_hysteria2` (`src/merge_config.py` lines
305-358).  The IPv6 bracket handling (`']:' in host_port`) at lines 325-332
is the part claim C5 is about. -/
def parse_hysteria2 (hy2_url : Str) : Option Dict :=
  let (main0, remark) :=
    if hasSub hy2_url (pstr "#") then
      match splitOnceSub (hy2_url.drop 12) (pstr "#") with
      | some (m, r) => (m, unquote r)
      | none => (hy2_url.drop 12, pstr "hy2")
    else (hy2_url.drop 12, pstr "hy2")
  let (main, query) :=
    if hasSub main0 (pstr "?") then
      match splitOnceSub main0 (pstr "?") with
      | some (m, q) => (m, q)
      | none => (main0, ([] : Str))
    else (main0, [])
  if ¬ hasSub main (pstr "@") then none
  else
    match splitOnceSub main (pstr "@") with
    | none => none
    | some (password, host_port) =>
        let sp? :=
          if hasSub host_port (pstr "]:") then
            match rsplitOnceChar host_port ':' with
            | some (server, port) =>
                some (pyReplace (pyReplace server (pstr "[") []) (pstr "]") [], port)
            | none => none
          else if hasSub host_port (pstr ":") then
            match rsplitOnceChar host_port ':' with
            | some (server, port) => some (server, port)
            | none => none
          else none
        match sp? with
        | none => none
        | some (server, port) =>
            match pyInt? port with
            | none => none
            | some portN =>
                let proxy : Dict :=
                  [(pstr "name", .vstr remark),
                   (pstr "type", .vstr (pstr "hysteria2")),
                   (pstr "server", .vstr server),
                   (pstr "port", .vint portN),
                   (pstr "password", .vstr password),
                   (pstr "udp", .vbool true),
                   (pstr "obfs", .vstr (pstr "none"))]
                let proxy :=
                  if ¬ query.isEmpty then
                    let params := rawParams query
                    let proxy :=
                      match dlookup params (pstr "sni") with
                      | some v => dset proxy (pstr "sni") v
                      | none => proxy
                    let proxy :=
                      match dlookup params (pstr "insecure") with
                      | some v =>
                          dset proxy (pstr "skip-cert-verify")
                            (.vbool (match v with | .vstr s => s == pstr "1" | _ => false))
                      | none => proxy
                    let proxy :=
                      match dlookup params (pstr "obfs") with
                      | some v => dset proxy (pstr "obfs") v
                      | none => proxy
                    match dlookup params (pstr "obfs-password") with
                    | some v => dset proxy (pstr "obfs-password") v
                    | none => proxy
                  else proxy
                some proxy

/-- `SubscriptionParser.parse_vmess` (`src/merge_config.py` lines 44-78).
`json.loads` is an external library call, passed in as `jsonLoad`
(`.error` models a raised exception, which the decoder's `except` turns
into `None`; a non-dict result makes the subsequent `v.get` raise, also
caught). -/
def parse_vmess (jsonLoad : Str → Except Unit PyVal) (vmess_url : Str) :
    Option Dict :=
  let json_str := decode_base64 (vmess_url.drop 8)
  if json_str.isEmpty then none
  else
    match jsonLoad json_str with
    | .error _ => none
    | .ok (.vdict v) =>
        match pyIntOfVal (dgetD v (pstr "port") .vnone) with
        | none => none
        | some portN =>
            match pyIntOfVal (dgetD v (pstr "aid") (.vint 0)) with
            | none => none
            | some aidN =>
                let proxy : Dict :=
                  [(pstr "name", dgetD v (pstr "ps") (.vstr (pstr "vmess"))),
                   (pstr "type", .vstr (pstr "vmess")),
                   (pstr "server", dgetD v (pstr "add") .vnone),
                   (pstr "port", .vint portN),
                   (pstr "uuid", dgetD v (pstr "id") .vnone),
                   (pstr "alterId", .vint aidN),
                   (pstr "cipher", .vstr (pstr "auto")),
                   (pstr "udp", .vbool true)]
                let proxy :=
                  if eqStrVal (dgetD v (pstr "net") .vnone) (pstr "ws") then
                    let ws_opts : Dict :=
                      [(pstr "path", dgetD v (pstr "path") (.vstr (pstr "/")))]
                    let ws_opts :=
                      if pyTruthy (dgetD v (pstr "host") .vnone) then
                        dset ws_opts (pstr "headers")
                          (.vdict [(pstr "Host", dgetD v (pstr "host") .vnone)])
                      else ws_opts
                    dset (dset proxy (pstr "network") (.vstr (pstr "ws")))
                      (pstr "ws-opts") (.vdict ws_opts)
                  else proxy
                let proxy :=
                  if eqStrVal (dgetD v (pstr "tls") .vnone) (pstr "tls") then
                    let proxy := dset proxy (pstr "tls") (.vbool true)
                    if pyTruthy (dgetD v (pstr "sni") .vnone) then
                      dset proxy (pstr "servername") (dgetD v (pstr "sni") .vnone)
                    else proxy
                  else proxy
                some proxy
    | .ok _ => none

/-- `SubscriptionParser.parse_ssr` (`src/merge_config.py` lines 251-303). -/
def parse_ssr (ssr_url : Str) : Option Dict :=
  let decoded := decode_base64 (ssr_url.drop 6)
  let (main, query) :=
    if hasSub decoded (pstr "/?") then
      match splitOnceSub decoded (pstr "/?") with
      | some (m, q) => (m, q)
      | none => (decoded, ([] : Str))
    else (decoded, [])
  match splitChar ':' main with
  | [server, portS, protocol, method, obfs, pwB64] =>
      match pyInt? portS with
      | none => none
      | some portN =>
          let password := decode_base64 pwB64
          let proxy : Dict :=
            [(pstr "name", .vstr (pstr "ssr")),
             (pstr "type", .vstr (pstr "ssr")),
             (pstr "server", .vstr server),
             (pstr "port", .vint portN),
             (pstr "cipher", .vstr method),
             (pstr "password", .vstr password),
             (pstr "protocol", .vstr protocol),
             (pstr "obfs", .vstr obfs),
             (pstr "udp", .vbool true)]
          let proxy :=
            if ¬ query.isEmpty then
              let params := rawParams query
              let proxy :=
                match dlookup params (pstr "remarks") with
                | some (.vstr r) => dset proxy (pstr "name") (.vstr (decode_base64 r))
                | _ => proxy
              let proxy :=
                match dlookup params (pstr "obfsparam") with
                | some (.vstr r) => dset proxy (pstr "obfs-param") (.vstr (decode_base64 r))
                | _ => proxy
              match dlookup params (pstr "protoparam") with
              | some (.vstr r) => dset proxy (pstr "protocol-param") (.vstr (decode_base64 r))
              | _ => proxy
            else proxy
          some proxy
  | _ => none

/-- One line of `parse_content` step 3: strip, skip empties, dispatch by
scheme prefix; a `{...}` line is JSON-parsed and kept only when it is a
dict with both `name` and `type` keys (and its branch `continue`s, so a
failed JSON parse appends nothing). -/
def parseLine (jsonLoad : Str → Except Unit PyVal) (line0 : Str) :
    Option PyVal :=
  let line := pstrip line0
  if line.isEmpty then none
  else if (pstr "vmess://").isPrefixOf line then
    (parse_vmess jsonLoad line).map .vdict
  else if (pstr "ss://").isPrefixOf line then (parse_ss line).map .vdict
  else if (pstr "trojan://").isPrefixOf line then (parse_trojan line).map .vdict
  else if (pstr "vless://").isPrefixOf line then (parse_vless line).map .vdict
  else if (pstr "ssr://").isPrefixOf line then (parse_ssr line).map .vdict
  else if (pstr "hysteria2://").isPrefixOf line ∨ (pstr "hy2://").isPrefixOf line then
    (parse_hysteria2 line).map .vdict
  else if (pstr "\x7b").isPrefixOf line ∧ line.getLast? = some '\x7d' then
    match jsonLoad line with
    | .ok (.vdict p) =>
        if (dlookup p (pstr "name")).isSome ∧ (dlookup p (pstr "type")).isSome then
          some (.vdict p)
        else none
    | _ => none
  else none

/-- Python `x or {}` (used on the result of `yaml.safe_load`). -/
def pyOrEmptyDict (v : PyVal) : PyVal :=
  if pyTruthy v then v else .vdict []

/-- `SubscriptionParser.parse_content` (`src/merge_config.py` lines
360-416).  `yaml.safe_load` and `json.loads` are external libraries, passed
in as functions; for `yamlLoad`, `.error` models a raised parse exception
and `.ok none` a YAML `null`.

Note the modelled control flow of step 2, faithful to the source: because
`decode_base64` catches its own exceptions and returns `""`, the only way
the `except` branch (which would fall back to treating the original blob as
a plain-text link list) can run is `yaml.safe_load(decoded)` raising; for a
blob that is not valid base64, `decoded` is simply `""` and step 3 iterates
over zero lines. -/
def parse_content (yamlLoad : Str → Except Unit (Option PyVal))
    (jsonLoad : Str → Except Unit PyVal) (content : Str) : PyVal :=
  -- Step 1: try YAML on the whole blob.
  let step1 :=
    match yamlLoad content with
    | .ok (some (.vdict d)) =>
        if (dlookup d (pstr "proxies")).isSome then some (PyVal.vdict d) else none
    | _ => none
  match step1 with
  | some d => d
  | none =>
    -- Step 2: base64-decode the whole blob and look for "proxies:".
    let decoded := decode_base64 content
    let step2 :=
      if hasSub decoded (pstr "proxies:") then
        match yamlLoad decoded with
        | .ok v => Sum.inl (pyOrEmptyDict (v.getD .vnone))
        | .error _ => Sum.inr content  -- `except: decoded = content`
      else Sum.inr decoded
    match step2 with
    | Sum.inl d => d
    | Sum.inr decoded =>
      -- Step 3: newline-delimited link list.
      let proxies := (pySplitlines decoded).filterMap (parseLine jsonLoad)
      if ¬ proxies.isEmpty then .vdict [(pstr "proxies", .vlist proxies)]
      else .vdict []

end SubscriptionParser

/-! ### `src/server.py` — per-scheme link decoders and the inverse encoder -/

namespace Server

/-- `decode_base64` in `src/server.py` (lines 310-319) is character-for-
character identical to `SubscriptionParser.decode_base64`. -/
def decode_base64 (content : Str) : Str :=
  SubscriptionParser.decode_base64 content

/-- `parse_vless_link` (`src/server.py` lines 321-388).  Unlike every other
decoder in the file, its body is **not** wrapped in `try/except`; reading
`parsed.port` raises `ValueError` for a non-numeric or out-of-range port,
and that exception propagates to the caller (modelled as `.error ()`). -/
def parse_vless_link (link0 : Str) : Except Unit (Option Dict) :=
  let link := pstrip link0
  if ¬ (pstr "vless://").isPrefixOf link then .ok none
  else
    let (link, name) :=
      if hasSub link (pstr "#") then
        match rsplitOnceChar link '#' with
        | some (l, n) => (l, unquote n)
        | none => (link, pstr "VLESS Node")
      else (link, pstr "VLESS Node")
    let parsed := urlparseM link
    let params := parse_qs parsed.query
    match urlPort parsed with
    | .error _ => .error ()
    | .ok portOpt =>
        let proxy : Dict :=
          [(pstr "name", .vstr name),
           (pstr "type", .vstr (pstr "vless")),
           (pstr "server",
            match parsed.hostname with | some h => .vstr h | none => .vnone),
           (pstr "port",
            match portOpt with | some p => .vint p | none => .vnone),
           (pstr "uuid",
            match parsed.username with | some u => .vstr u | none => .vnone),
           (pstr "udp", .vbool true)]
        let security := qsGet0 params (pstr "security") []
        let proxy :=
          if security = pstr "tls" then
            let proxy := dset proxy (pstr "tls") (.vbool true)
            let proxy :=
              match qsGet params (pstr "sni") with
              | some (v :: _) => dset proxy (pstr "servername") (.vstr v)
              | _ => proxy
            let proxy :=
              match qsGet params (pstr "fp") with
              | some (v :: _) => dset proxy (pstr "client-fingerprint") (.vstr v)
              | _ => proxy
            match qsGet params (pstr "alpn") with
            | some (v :: _) =>
                dset proxy (pstr "alpn")
                  (.vlist ((splitChar ',' v).map .vstr))
            | _ => proxy
          else if security = pstr "reality" then
            let proxy := dset proxy (pstr "tls") (.vbool true)
            let proxy := dset proxy (pstr "reality-opts") (.vdict [])
            let proxy :=
              match qsGet params (pstr "pbk") with
              | some (v :: _) =>
                  dset proxy (pstr "reality-opts")
                    (.vdict [(pstr "public-key", .vstr v)])
              | _ => proxy
            let proxy :=
              match qsGet params (pstr "sid") with
              | some (v :: _) =>
                  match dlookup proxy (pstr "reality-opts") with
                  | some (.vdict ro) =>
                      dset proxy (pstr "reality-opts")
                        (.vdict (dset ro (pstr "short-id") (.vstr v)))
                  | _ => proxy
              | _ => proxy
            let proxy :=
              match qsGet params (pstr "sni") with
              | some (v :: _) => dset proxy (pstr "servername") (.vstr v)
              | _ => proxy
            match qsGet params (pstr "fp") with
            | some (v :: _) => dset proxy (pstr "client-fingerprint") (.vstr v)
            | _ => proxy
          else proxy
        let network := qsGet0 params (pstr "type") []
        let proxy :=
          if ¬ network.isEmpty then
            let proxy := dset proxy (pstr "network") (.vstr network)
            if network = pstr "ws" then
              let proxy := dset proxy (pstr "ws-opts") (.vdict [])
              let proxy :=
                match qsGet params (pstr "path") with
                | some (v :: _) =>
                    match dlookup proxy (pstr "ws-opts") with
                    | some (.vdict wo) =>
                        dset proxy (pstr "ws-opts")
                          (.vdict (dset wo (pstr "path") (.vstr v)))
                    | _ => proxy
                | _ => proxy
              match qsGet params (pstr "host") with
              | some (v :: _) =>
                  match dlookup proxy (pstr "ws-opts") with
                  | some (.vdict wo) =>
                      dset proxy (pstr "ws-opts")
                        (.vdict (dset wo (pstr "headers")
                          (.vdict [(pstr "Host", .vstr v)])))
                  | _ => proxy
              | _ => proxy
            else if network = pstr "grpc" then
              let proxy := dset proxy (pstr "grpc-opts") (.vdict [])
              match qsGet params (pstr "serviceName") with
              | some (v :: _) =>
                  dset proxy (pstr "grpc-opts")
                    (.vdict [(pstr "grpc-service-name", .vstr v)])
              | _ => proxy
            else if network = pstr "h2" then
              let proxy := dset proxy (pstr "h2-opts") (.vdict [])
              let proxy :=
                match qsGet params (pstr "path") with
                | some (v :: _) =>
                    match dlookup proxy (pstr "h2-opts") with
                    | some (.vdict ho) =>
                        dset proxy (pstr "h2-opts")
                          (.vdict (dset ho (pstr "path") (.vstr v)))
                    | _ => proxy
                | _ => proxy
              match qsGet params (pstr "host") with
              | some (v :: _) =>
                  match dlookup proxy (pstr "h2-opts") with
                  | some (.vdict ho) =>
                      dset proxy (pstr "h2-opts")
                        (.vdict (dset ho (pstr "host") (.vlist [.vstr v])))
                  | _ => proxy
              | _ => proxy
            else proxy
          else proxy
        let proxy :=
          match qsGet params (pstr "flow") with
          | some (v :: _) => dset proxy (pstr "flow") (.vstr v)
          | _ => proxy
        .ok (some proxy)

/-- The `vless` arm of `proxy_to_link` (`src/server.py` lines 1627-1658):
rebuild `vless://uuid@server:port?params#name` from a proxy dict. -/
def proxy_to_link_vless (proxy : Dict) : Str :=
  let name := fmtVal (dgetD proxy (pstr "name") (.vstr []))
  let server := fmtVal (dgetD proxy (pstr "server") (.vstr []))
  let port := fmtVal (dgetD proxy (pstr "port") (.vstr []))
  let params : List Str := []
  let params :=
    if pyTruthy (dgetD proxy (pstr "network") .vnone) then
      params ++ [pstr "type=" ++ fmtVal (dgetD proxy (pstr "network") .vnone)]
    else params
  let params :=
    if pyTruthy (dgetD proxy (pstr "tls") .vnone) then
      if pyTruthy (dgetD proxy (pstr "reality-opts") .vnone) then
        let ro :=
          match dlookup proxy (pstr "reality-opts") with
          | some (.vdict d) => d
          | _ => []
        let params := params ++ [pstr "security=reality"]
        let params :=
          if pyTruthy (dgetD ro (pstr "public-key") .vnone) then
            params ++ [pstr "pbk=" ++ fmtVal (dgetD ro (pstr "public-key") .vnone)]
          else params
        if pyTruthy (dgetD ro (pstr "short-id") .vnone) then
          params ++ [pstr "sid=" ++ fmtVal (dgetD ro (pstr "short-id") .vnone)]
        else params
      else params ++ [pstr "security=tls"]
    else params
  let params :=
    if pyTruthy (dgetD proxy (pstr "servername") .vnone) then
      params ++ [pstr "sni=" ++ fmtVal (dgetD proxy (pstr "servername") .vnone)]
    else params
  let params :=
    if pyTruthy (dgetD proxy (pstr "client-fingerprint") .vnone) then
      params ++ [pstr "fp=" ++ fmtVal (dgetD proxy (pstr "client-fingerprint") .vnone)]
    else params
  let params :=
    if pyTruthy (dgetD proxy (pstr "flow") .vnone) then
      params ++ [pstr "flow=" ++ fmtVal (dgetD proxy (pstr "flow") .vnone)]
    else params
  let params :=
    if eqStrVal (dgetD proxy (pstr "network") .vnone) (pstr "ws") then
      let wo :=
        match dlookup proxy (pstr "ws-opts") with
        | some (.vdict d) => d
        | _ => []
      let params :=
        if pyTruthy (dgetD wo (pstr "path") .vnone) then
          params ++ [pstr "path=" ++ quotePy (fmtVal (dgetD wo (pstr "path") .vnone))]
        else params
      let host :=
        match dlookup wo (pstr "headers") with
        | some (.vdict h) => dgetD h (pstr "Host") .vnone
        | _ => .vnone
      if pyTruthy host then params ++ [pstr "host=" ++ fmtVal host] else params
    else if eqStrVal (dgetD proxy (pstr "network") .vnone) (pstr "grpc") then
      let go :=
        match dlookup proxy (pstr "grpc-opts") with
        | some (.vdict d) => d
        | _ => []
      if pyTruthy (dgetD go (pstr "grpc-service-name") .vnone) then
        params ++ [pstr "serviceName=" ++ fmtVal (dgetD go (pstr "grpc-service-name") .vnone)]
      else params
    else params
  let query := joinWith (pstr "&") params
  pstr "vless://" ++ fmtVal (dgetD proxy (pstr "uuid") (.vstr [])) ++
    pstr "@" ++ server ++ pstr ":" ++ port ++
    (if ¬ query.isEmpty then pstr "?" ++ query else []) ++
    pstr "#" ++ quotePy name

end Server

/-! ### `src/merge_config.py` — `NameTransformer` -/

namespace NameTransformer

/-- `NameTransformer.SOURCE_PREFIX_MAP` (`src/merge_config.py` lines
462-468): source filename stem → rename tag.  (The Lean name differs from
the Python one for lexical reasons only.) -/
def SOURCE_NAME_MAP : List (Str × Str) :=
  [(pstr "宝可梦", pstr "宝可梦"),
   (pstr "流量光机场", pstr "流量多"),
   (pstr "淘气兔", pstr "淘气兔"),
   (pstr "风萧萧公益机场", pstr "风萧萧"),
   (pstr "魔戒", pstr "魔戒")]

/-- Lookup in a string-to-string table with a default
(Python `dict.get(k, dflt)`). -/
def sLookupD (m : List (Str × Str)) (k dflt : Str) : Str :=
  match m with
  | [] => dflt
  | (k', v) :: rest => if k' = k then v else sLookupD rest k dflt

/-- `NameTransformer.FLAG_EMOJIS` (`src/merge_config.py` lines 471-483). -/
def FLAG_EMOJIS : List Str :=
  [pstr "🇭🇰", pstr "🇹🇼", pstr "🇯🇵", pstr "🇺🇸", pstr "🇸🇬",
   pstr "🇰🇷", pstr "🇬🇧", pstr "🇩🇪", pstr "🇨🇦", pstr "🇦🇺",
   pstr "🇫🇷", pstr "🇷🇺", pstr "🇮🇳", pstr "🇳🇱", pstr "🇹🇷",
   pstr "🇦🇶", pstr "🇲🇾", pstr "🇪🇸", pstr "🇻🇳", pstr "🇺🇦",
   pstr "🇲🇩", pstr "🇳🇬", pstr "🇧🇷", pstr "🇮🇹", pstr "🇵🇱",
   pstr "🇨🇭", pstr "🇦🇹", pstr "🇧🇪", pstr "🇸🇪", pstr "🇳🇴",
   pstr "🇩🇰", pstr "🇫🇮", pstr "🇮🇪", pstr "🇵🇹", pstr "🇬🇷",
   pstr "🇨🇿", pstr "🇭🇺", pstr "🇷🇴", pstr "🇧🇬", pstr "🇭🇷",
   pstr "🇸🇰", pstr "🇸🇮", pstr "🇱🇹", pstr "🇱🇻", pstr "🇪🇪",
   pstr "🇮🇱", pstr "🇦🇪", pstr "🇸🇦", pstr "🇶🇦", pstr "🇰🇼",
   pstr "🇴🇲", pstr "🇧🇭", pstr "🇯🇴", pstr "🇱🇧", pstr "🇪🇬",
   pstr "🇿🇦", pstr "🇰🇪", pstr "🇳🇿", pstr "🇵🇭", pstr "🇹🇭",
   pstr "🇮🇩", pstr "🇵🇰", pstr "🇧🇩", pstr "🇱🇰", pstr "🇳🇵",
   pstr "🇲🇲", pstr "🇰🇭", pstr "🇱🇦", pstr "🇲🇳", pstr "🇰🇿",
   pstr "🇺🇿", pstr "🇦🇿", pstr "🇬🇪", pstr "🇦🇲", pstr "🇨🇾",
   pstr "🇲🇹", pstr "🇮🇸", pstr "🇱🇺", pstr "🇲🇨", pstr "🇦🇩",
   pstr "🇱🇮", pstr "🇸🇲", pstr "🇻🇦", pstr "🇲🇽", pstr "🇦🇷",
   pstr "🇨🇱", pstr "🇨🇴", pstr "🇵🇪", pstr "🇻🇪", pstr "🇪🇨",
   pstr "🇧🇴", pstr "🇵🇾", pstr "🇺🇾", pstr "🇨🇷", pstr "🇵🇦",
   pstr "🇨🇺", pstr "🇩🇴", pstr "🇵🇷", pstr "🇯🇲", pstr "🇭🇹",
   pstr "🔰", pstr "🌏", pstr "🌍", pstr "🌎", pstr "🏳️"]

/-- `NameTransformer.COUNTRY_FLAG_MAP` (`src/merge_config.py` lines
486-532): flag → keyword patterns. -/
def COUNTRY_FLAG_MAP : List (Str × List Str) :=
  [(pstr "🇭🇰", [pstr "HK", pstr "Hong Kong", pstr "香港", pstr "Hongkong"]),
   (pstr "🇹🇼", [pstr "TW", pstr "Taiwan", pstr "台湾", pstr "Taipei"]),
   (pstr "🇯🇵", [pstr "JP", pstr "Japan", pstr "日本", pstr "Tokyo", pstr "Osaka"]),
   (pstr "🇺🇸", [pstr "US", pstr "United States", pstr "美国", pstr "America",
     pstr "USA", pstr "Los Angeles", pstr "Seattle", pstr "San Jose"]),
   (pstr "🇸🇬", [pstr "SG", pstr "Singapore", pstr "新加坡"]),
   (pstr "🇰🇷", [pstr "KR", pstr "Korea", pstr "韩国", pstr "Seoul"]),
   (pstr "🇬🇧", [pstr "GB", pstr "UK", pstr "United Kingdom", pstr "英国",
     pstr "England", pstr "London"]),
   (pstr "🇩🇪", [pstr "DE", pstr "Germany", pstr "德国", pstr "Frankfurt"]),
   (pstr "🇨🇦", [pstr "CA", pstr "Canada", pstr "加拿大", pstr "Toronto",
     pstr "Vancouver"]),
   (pstr "🇦🇺", [pstr "AU", pstr "Australia", pstr "澳大利亚", pstr "澳洲",
     pstr "Sydney"]),
   (pstr "🇫🇷", [pstr "FR", pstr "France", pstr "法国", pstr "Paris"]),
   (pstr "🇷🇺", [pstr "RU", pstr "Russia", pstr "俄罗斯", pstr "Moscow"]),
   (pstr "🇮🇳", [pstr "IN", pstr "India", pstr "印度"]),
   (pstr "🇳🇱", [pstr "NL", pstr "Netherlands", pstr "荷兰", pstr "Amsterdam"]),
   (pstr "🇹🇷", [pstr "TR", pstr "Turkey", pstr "土耳其", pstr "Istanbul"]),
   (pstr "🇦🇶", [pstr "Antarctica", pstr "南极"]),
   (pstr "🇲🇾", [pstr "MY", pstr "Malaysia", pstr "马来西亚"]),
   (pstr "🇪🇸", [pstr "ES", pstr "Spain", pstr "西班牙"]),
   (pstr "🇻🇳", [pstr "VN", pstr "Vietnam", pstr "越南"]),
   (pstr "🇺🇦", [pstr "UA", pstr "Ukraine", pstr "乌克兰"]),
   (pstr "🇲🇩", [pstr "MD", pstr "Moldova", pstr "摩尔多瓦"]),
   (pstr "🇳🇬", [pstr "NG", pstr "Nigeria", pstr "尼日利亚"]),
   (pstr "🇧🇷", [pstr "BR", pstr "Brazil", pstr "巴西"]),
   (pstr "🇮🇹", [pstr "IT", pstr "Italy", pstr "意大利"]),
   (pstr "🇵🇱", [pstr "PL", pstr "Poland", pstr "波兰"]),
   (pstr "🇨🇭", [pstr "CH", pstr "Switzerland", pstr "瑞士"]),
   (pstr "🇦🇹", [pstr "AT", pstr "Austria", pstr "奥地利"]),
   (pstr "🇧🇪", [pstr "BE", pstr "Belgium", pstr "比利时"]),
   (pstr "🇸🇪", [pstr "SE", pstr "Sweden", pstr "瑞典"]),
   (pstr "🇳🇴", [pstr "NO", pstr "Norway", pstr "挪威"]),
   (pstr "🇩🇰", [pstr "DK", pstr "Denmark", pstr "丹麦"]),
   (pstr "🇫🇮", [pstr "FI", pstr "Finland", pstr "芬兰"]),
   (pstr "🇮🇪", [pstr "IE", pstr "Ireland", pstr "爱尔兰"]),
   (pstr "🇵🇹", [pstr "PT", pstr "Portugal", pstr "葡萄牙"]),
   (pstr "🇬🇷", [pstr "GR", pstr "Greece", pstr "希腊"]),
   (pstr "🇮🇱", [pstr "IL", pstr "Israel", pstr "以色列"]),
   (pstr "🇦🇪", [pstr "AE", pstr "UAE", pstr "阿联酋", pstr "Dubai"]),
   (pstr "🇿🇦", [pstr "ZA", pstr "South Africa", pstr "南非"]),
   (pstr "🇳🇿", [pstr "NZ", pstr "New Zealand", pstr "新西兰"]),
   (pstr "🇵🇭", [pstr "PH", pstr "Philippines", pstr "菲律宾"]),
   (pstr "🇹🇭", [pstr "TH", pstr "Thailand", pstr "泰国"]),
   (pstr "🇮🇩", [pstr "ID", pstr "Indonesia", pstr "印尼", pstr "印度尼西亚"]),
   (pstr "🇵🇰", [pstr "PK", pstr "Pakistan", pstr "巴基斯坦"]),
   (pstr "🇲🇽", [pstr "MX", pstr "Mexico", pstr "墨西哥"]),
   (pstr "🇦🇷", [pstr "AR", pstr "Argentina", pstr "阿根廷"])]

/-- The generic glyphs excluded from flag detection
(`flag != '🔰' and flag != '🌏' ...`). -/
def genericFlag (f : Str) : Bool :=
  f == pstr "🔰" || f == pstr "🌏" || f == pstr "🌍" || f == pstr "🌎" ||
    f == pstr "🏳️"

/-- Does the pattern contain a CJK character
(`any('一' <= c <= '鿿' for c in pattern)`)? -/
def hasChinese (p : Str) : Bool :=
  p.any fun c => 0x4e00 ≤ c.toNat ∧ c.toNat ≤ 0x9fff

/-- Does `pat` match at the head of `s` with non-`isAl` characters on both
sides (`prev` is the character just before `s`, if any)? -/
def atBound (isAl : Char → Bool) (pat : Str) (prev : Option Char) (s : Str) :
    Bool :=
  pat.isPrefixOf s &&
    (match prev with | some c => ¬ isAl c | none => true) &&
    (match s.drop pat.length with | c :: _ => ¬ isAl c | [] => true)

/-- Model of `re.search(r'(?<!X)' ++ pat ++ r'(?!X)', s)` where `X` is the
character class `isAl`: the pattern matches somewhere in `s` with no
`isAl`-character adjacent on either side. -/
def boundMatch (isAl : Char → Bool) (pat : Str) : Option Char → Str → Bool
  | prev, [] => atBound isAl pat prev []
  | prev, c :: r => atBound isAl pat prev (c :: r) || boundMatch isAl pat (some c) r

/-- ASCII uppercase letter (the `[A-Z]` class). -/
def isUpperAZ (c : Char) : Bool := 'A' ≤ c ∧ c ≤ 'Z'

/-- ASCII letter (the `[A-Za-z]` class). -/
def isAlphaAZ (c : Char) : Bool := ('A' ≤ c ∧ c ≤ 'Z') ∨ ('a' ≤ c ∧ c ≤ 'z')

/-- `NameTransformer.remove_flags` (`src/merge_config.py` lines 534-542):
delete every flag glyph, collapse whitespace, trim. -/
def remove_flags (name : Str) : Str :=
  let r := FLAG_EMOJIS.foldl (fun acc f => pyReplace acc f []) name
  pstrip (joinWith (pstr " ") (pySplitWs r))

/-- One keyword test of `identify_flag` priority 3 (on the uppercased
name): CJK patterns by containment, short Latin patterns with `[A-Z]`
boundaries on the uppercased text, longer patterns by uppercased
containment. -/
def kwTestU (nameU : Str) (name : Str) (pat : Str) : Bool :=
  if hasChinese pat then hasSub name pat
  else if pat.length ≤ 3 then boundMatch isUpperAZ (pat.map upChar) none nameU
  else hasSub nameU (pat.map upChar)

/-- `NameTransformer.identify_flag` (`src/merge_config.py` lines 544-588).
The GeoIP collaborator (`GeoIPLookup.get_flag`, backed by a local database,
remote services and a per-run cache) is external; it is passed in as `geo`,
with `geo = fun _ => none` covering both `GEOIP_AVAILABLE = False` and a
lookup miss. -/
def identify_flag (geo : Str → Option Str) (name : Str) (server : Str) : Str :=
  match FLAG_EMOJIS.find? fun f => f.isPrefixOf name && ¬ genericFlag f with
  | some f => f
  | none =>
    match FLAG_EMOJIS.find? fun f => hasSub name f && ¬ genericFlag f with
    | some f => f
    | none =>
      let nameU := name.map upChar
      match COUNTRY_FLAG_MAP.find? fun fp => fp.2.any (kwTestU nameU name) with
      | some fp => fp.1
      | none =>
        if ¬ server.isEmpty then
          match geo server with
          | some f => f
          | none => pstr "🔰"
        else pstr "🔰"

/-- Steps 2-3 of `transform_name` (lines 603-608): strip decorations, then
rewrite a literal `[ipv6]` marker. -/
def cleanName (original_name : Str) : Str :=
  let c := remove_flags original_name
  if hasSub c (pstr "[ipv6]") then pyReplace c (pstr "[ipv6]") (pstr "ipv6")
  else c

/-- Step 4 of `transform_name` (lines 610-615): is a known source tag,
followed by a space or hyphen, already at the head of the cleaned name? -/
def hasKnownTag (clean_name : Str) : Bool :=
  SOURCE_NAME_MAP.any fun kv =>
    (kv.2 ++ pstr " ").isPrefixOf clean_name ||
      (kv.2 ++ pstr "-").isPrefixOf clean_name

/-- `NameTransformer.transform_name` (`src/merge_config.py` lines 590-626):
identify the flag on the *original* name, strip decorations, rewrite
`[ipv6]`, add the source tag unless one is already present, and return a
**copy** of the record with only `name` replaced.  `none` models a raised
exception (a non-string `name`/`server` value, which the surrounding code
never produces). -/
def transform_name (geo : Str → Option Str) (proxy : Dict) (source_name : Str) :
    Option Dict :=
  if proxy.isEmpty ∨ (dlookup proxy (pstr "name")).isNone then some proxy
  else
    match dlookup proxy (pstr "name"), dlookup proxy (pstr "server") with
    | some (.vstr original_name), serverV =>
        match (match serverV with
               | none => some ([] : Str)
               | some (.vstr s) => some s
               | some _ => none) with
        | none => none
        | some server =>
            let tag := sLookupD SOURCE_NAME_MAP source_name source_name
            let flag := identify_flag geo original_name server
            let clean_name := cleanName original_name
            let new_name :=
              if hasKnownTag clean_name then flag ++ pstr " " ++ clean_name
              else flag ++ pstr " " ++ tag ++ pstr " " ++ clean_name
            some (dset proxy (pstr "name") (.vstr new_name))
    | some _, _ => none
    | none, _ => some proxy

end NameTransformer

/-! ### `src/merge_config.py` — `CountryGrouper` -/

namespace CountryGrouper

/-- `CountryGrouper.COUNTRY_PATTERNS` (`src/merge_config.py` lines
836-860): group label → patterns, the first pattern always being the flag
glyph.  `identify_country` can extend this table at run time (GeoIP hits),
so it is threaded as state below. -/
def COUNTRY_PATTERNS : List (Str × List Str) :=
  [(pstr "🇭🇰 香港", [pstr "🇭🇰", pstr "HK", pstr "Hong Kong", pstr "香港"]),
   (pstr "🇹🇼 台湾", [pstr "🇹🇼", pstr "TW", pstr "Taiwan", pstr "台湾", pstr "Taipei"]),
   (pstr "🇯🇵 日本", [pstr "🇯🇵", pstr "JP", pstr "Japan", pstr "日本"]),
   (pstr "🇺🇸 美国", [pstr "🇺🇸", pstr "US", pstr "United States", pstr "美国"]),
   (pstr "🇸🇬 新加坡", [pstr "🇸🇬", pstr "SG", pstr "Singapore", pstr "新加坡"]),
   (pstr "🇰🇷 韩国", [pstr "🇰🇷", pstr "KR", pstr "Korea", pstr "韩国"]),
   (pstr "🇬🇧 英国", [pstr "🇬🇧", pstr "GB", pstr "UK", pstr "United Kingdom",
     pstr "英国", pstr "England"]),
   (pstr "🇩🇪 德国", [pstr "🇩🇪", pstr "DE", pstr "Germany", pstr "德国"]),
   (pstr "🇨🇦 加拿大", [pstr "🇨🇦", pstr "CA", pstr "Canada", pstr "加拿大"]),
   (pstr "🇦🇺 澳大利亚", [pstr "🇦🇺", pstr "AU", pstr "Australia",
     pstr "澳大利亚", pstr "澳洲"]),
   (pstr "🇫🇷 法国", [pstr "🇫🇷", pstr "FR", pstr "France", pstr "法国"]),
   (pstr "🇷🇺 俄罗斯", [pstr "🇷🇺", pstr "RU", pstr "Russia", pstr "俄罗斯"]),
   (pstr "🇮🇳 印度", [pstr "🇮🇳", pstr "IN", pstr "India", pstr "印度"]),
   (pstr "🇳🇱 荷兰", [pstr "🇳🇱", pstr "NL", pstr "Netherlands", pstr "荷兰"]),
   (pstr "🇹🇷 土耳其", [pstr "🇹🇷", pstr "TR", pstr "Turkey", pstr "土耳其"]),
   (pstr "🇦🇶 南极洲", [pstr "🇦🇶", pstr "Antarctica", pstr "南极"]),
   (pstr "🇲🇾 马来西亚", [pstr "🇲🇾", pstr "MY", pstr "Malaysia", pstr "马来西亚"]),
   (pstr "🇪🇸 西班牙", [pstr "🇪🇸", pstr "ES", pstr "Spain", pstr "西班牙"]),
   (pstr "🇻🇳 越南", [pstr "🇻🇳", pstr "VN", pstr "Vietnam", pstr "越南"]),
   (pstr "🇺🇦 乌克兰", [pstr "🇺🇦", pstr "UA", pstr "Ukraine", pstr "乌克兰"]),
   (pstr "🇲🇩 摩尔多瓦", [pstr "🇲🇩", pstr "MD", pstr "Moldova", pstr "摩尔多瓦"]),
   (pstr "🇳🇬 尼日利亚", [pstr "🇳🇬", pstr "NG", pstr "Nigeria", pstr "尼日利亚"]),
   (pstr "🇳🇴 挪威", [pstr "🇳🇴", pstr "NO", pstr "Norway", pstr "挪威"])]

/-- Lookup in a label → patterns table (`country_groups[c]` /
`country_group in COUNTRY_PATTERNS`). -/
def alookupL : List (Str × List Str) → Str → Option (List Str)
  | [], _ => none
  | (k', v) :: rest, k => if k' = k then some v else alookupL rest k

/-- One keyword test of `identify_country` priority 3: CJK patterns by
containment in the original name, short Latin patterns with `[A-Za-z]`
boundaries case-insensitively, longer patterns by uppercased containment. -/
def kwTestCI (name : Str) (pat : Str) : Bool :=
  if NameTransformer.hasChinese pat then hasSub name pat
  else if pat.length ≤ 3 then
    NameTransformer.boundMatch NameTransformer.isAlphaAZ (pat.map upChar) none
      (name.map upChar)
  else hasSub (name.map upChar) (pat.map upChar)

/-- `CountryGrouper.identify_country` (`src/merge_config.py` lines
862-912), with the run-time pattern table threaded explicitly (the Python
code mutates the class attribute `COUNTRY_PATTERNS` in place when a GeoIP
lookup discovers a new country).  `geo` stands for the external
`GeoIPLookup.get_country_group` collaborator (local database, remote
services, per-run cache); `geo = fun _ => none` covers both
`GEOIP_AVAILABLE = False` and a lookup miss.  Returns the assigned label
and the (possibly extended) table. -/
def identify_country (geo : Str → Option Str)
    (pats : List (Str × List Str)) (proxy_name proxy_server : Str) :
    Str × List (Str × List Str) :=
  match pats.find? fun kv => (kv.2.headD []).isPrefixOf proxy_name with
  | some kv => (kv.1, pats)
  | none =>
    match pats.find? fun kv => hasSub proxy_name (kv.2.headD []) with
    | some kv => (kv.1, pats)
    | none =>
      match pats.find? fun kv => kv.2.tail.any (kwTestCI proxy_name) with
      | some kv => (kv.1, pats)
      | none =>
        if ¬ proxy_server.isEmpty then
          match geo proxy_server with
          | some cg =>
              let pats' :=
                if (alookupL pats cg).isNone then
                  match splitOnceSub cg (pstr " ") with
                  | some (f, nm) => pats ++ [(cg, [f, nm])]
                  | none => pats
                else pats
              (cg, pats')
          | none => (pstr "🔰 未知", pats)
        else (pstr "🔰 未知", pats)

/-- The `name`/`server` field of a record as read by `group_by_country`
(`proxy.get('name', '')`): absent means `''`; a non-string value would make
`identify_country` raise, modelled `none`. -/
def strField (p : Dict) (k : Str) : Option Str :=
  match dlookup p k with
  | none => some []
  | some (.vstr s) => some s
  | some _ => none

/-- The loop of `CountryGrouper.group_by_country` (`src/merge_config.py`
lines 914-928), threading the pattern table and the accumulated groups. -/
def gbcGo (geo : Str → Option Str) :
    List Dict → List (Str × List Str) → List (Str × List Str) →
      Option (List (Str × List Str))
  | [], _, groups => some groups
  | p :: rest, pats, groups =>
      match strField p (pstr "name"), strField p (pstr "server") with
      | some name, some server =>
          let ic := identify_country geo pats name server
          gbcGo geo rest ic.2 (qsAdd groups ic.1 name)
      | _, _ => none

/-- `CountryGrouper.group_by_country`: bucket records by
`identify_country`, starting from the static `COUNTRY_PATTERNS` table. -/
def group_by_country (geo : Str → Option Str) (proxies : List Dict) :
    Option (List (Str × List Str)) :=
  gbcGo geo proxies COUNTRY_PATTERNS []

end CountryGrouper

/-! ### `src/merge_config.py` — `ProxyGroupGenerator` -/

namespace ProxyGroupGenerator

/-- `len(country_groups[c])`, with a missing key reading as 0 (every key
passed in comes from the table, so the default is never exercised). -/
def bucketLen (cg : List (Str × List Str)) (c : Str) : Nat :=
  ((CountryGrouper.alookupL cg c).getD []).length

/-- Stable descending insertion: place `x` before the first element whose
key is ≤ its own.  This is the unique stable descending sort semantics of
Python's `sorted(..., key=..., reverse=True)`. -/
def insDesc (keyFn : Str → Nat) (x : Str) : List Str → List Str
  | [] => [x]
  | y :: l => if keyFn y ≤ keyFn x then x :: y :: l else y :: insDesc keyFn x l

/-- Stable descending insertion sort. -/
def isortDesc (keyFn : Str → Nat) : List Str → List Str
  | [] => []
  | x :: xs => insDesc keyFn x (isortDesc keyFn xs)

/-- The `sorted_countries` list of `generate_groups` (`src/merge_config.py`
lines 952-956): the non-empty bucket labels sorted by member count
descending, ties keeping dict insertion (first-seen) order. -/
def sorted_countries (cg : List (Str × List Str)) : List Str :=
  isortDesc (bucketLen cg)
    ((cg.map Prod.fst).filter fun c =>
      !((CountryGrouper.alookupL cg c).getD []).isEmpty)

/-- One per-country select group (`src/merge_config.py` lines 998-1002). -/
def mkCountryGroup (cg : List (Str × List Str)) (c : Str) : Dict :=
  [(pstr "name", .vstr c),
   (pstr "type", .vstr (pstr "select")),
   (pstr "proxies", .vlist (((CountryGrouper.alookupL cg c).getD []).map .vstr))]

/-- The four fixed head groups of `generate_groups` (`src/merge_config.py`
lines 958-993): GLOBAL select, manual select, url-test auto select with
300s interval and 50ms tolerance, fallback with 300s interval. -/
def headGroups (sc : List Str) : List Dict :=
  [[(pstr "name", .vstr (pstr "GLOBAL")),
    (pstr "type", .vstr (pstr "select")),
    (pstr "proxies", .vlist
      ([.vstr (pstr "DIRECT"), .vstr (pstr "REJECT"),
        .vstr (pstr "🚀 手动选择"), .vstr (pstr "♻️ 自动选择(测速)"),
        .vstr (pstr "🔯 故障转移")] ++ sc.map PyVal.vstr))],
   [(pstr "name", .vstr (pstr "🚀 手动选择")),
    (pstr "type", .vstr (pstr "select")),
    (pstr "proxies", .vlist
      ([.vstr (pstr "DIRECT"), .vstr (pstr "REJECT")] ++ sc.map PyVal.vstr))],
   [(pstr "name", .vstr (pstr "♻️ 自动选择(测速)")),
    (pstr "type", .vstr (pstr "url-test")),
    (pstr "proxies", .vlist (sc.map PyVal.vstr)),
    (pstr "url", .vstr (pstr "http://www.gstatic.com/generate_204")),
    (pstr "interval", .vint 300),
    (pstr "tolerance", .vint 50)],
   [(pstr "name", .vstr (pstr "🔯 故障转移")),
    (pstr "type", .vstr (pstr "fallback")),
    (pstr "proxies", .vlist (sc.map PyVal.vstr)),
    (pstr "url", .vstr (pstr "http://www.gstatic.com/generate_204")),
    (pstr "interval", .vint 300)]]

/-- The per-country groups appended after the head groups
(`src/merge_config.py` lines 996-1003): one select group per country of
`sc` that has a non-empty bucket. -/
def pcGroups (cg : List (Str × List Str)) : List Str → List Dict
  | [] => []
  | c :: sc =>
      match CountryGrouper.alookupL cg c with
      | some b =>
          if ¬ b.isEmpty then mkCountryGroup cg c :: pcGroups cg sc
          else pcGroups cg sc
      | none => pcGroups cg sc

/-- `ProxyGroupGenerator.generate_groups` (`src/merge_config.py` lines
945-1005).  The first statement, `all_proxy_names = [p['name'] for p in
proxies]`, raises `KeyError` when a record lacks `name` (modelled `none`);
the list itself is never used afterwards.  The output is the four fixed
head groups followed by one select group per non-empty country bucket in
`sorted_countries` order. -/
def generate_groups (proxies : List Dict) (cg : List (Str × List Str)) :
    Option (List Dict) :=
  if proxies.all fun p => (dlookup p (pstr "name")).isSome then
    some (headGroups (sorted_countries cg) ++ pcGroups cg (sorted_countries cg))
  else none

/-- The `name` of a synthesized group. -/
def groupName (g : Dict) : Str :=
  match dlookup g (pstr "name") with
  | some (.vstr s) => s
  | _ => []

/-- The member list of a synthesized group (its `proxies` entry). -/
def groupMembers (g : Dict) : List Str :=
  match dlookup g (pstr "proxies") with
  | some (.vlist l) => l.filterMap fun v =>
      match v with | .vstr s => some s | _ => none
  | _ => []

end ProxyGroupGenerator

/-! ## Dict lemmas -/

theorem dlookup_dset_self (d : Dict) (k : Str) (v : PyVal) :
    dlookup (dset d k v) k = some v := by
  induction d with
  | nil => simp [dset, dlookup]
  | cons kv rest ih =>
      by_cases h : kv.1 = k
      · simp [dset, h, dlookup]
      · simp [dset, h, dlookup, ih]

theorem dlookup_dset_ne (d : Dict) (k : Str) (v : PyVal) (k' : Str)
    (h : k' ≠ k) : dlookup (dset d k v) k' = dlookup d k' := by
  induction d with
  | nil =>
      simp only [dset, dlookup]
      rw [if_neg fun hh => h hh.symm]
  | cons kv rest ih =>
      rcases kv with ⟨k0, v0⟩
      by_cases hk : k0 = k
      · subst hk
        simp only [dset, if_pos rfl, dlookup]
        rw [if_neg fun hh => h hh.symm, if_neg fun hh => h hh.symm]
      · simp only [dset, if_neg hk, dlookup]
        by_cases hk' : k0 = k'
        · rw [if_pos hk', if_pos hk']
        · rw [if_neg hk', if_neg hk', ih]

/-! ## Claim C10 — `decode_base64` is total and maps every failure to `""`

`decode_base64` (both copies, `src/merge_config.py` 32-42 and
`src/server.py` 310-319) normalizes, recomputes padding, and wraps the
decode in a bare `except` returning `""`; the empty payload also decodes to
`""`, so failure and genuinely empty content are indistinguishable. -/

/-- C10 (confirmed): `decode_base64` returns `""` whenever the
normalize/decode pipeline fails; the empty payload also yields `""`; and a
concrete undecodable non-empty input (`"/w=="`, valid base64 of the
non-UTF-8 byte `0xFF`) is indistinguishable from the empty payload. -/
theorem C10_decode_base64_total :
    (∀ s : Str,
      SubscriptionParser.b64TryDecode (SubscriptionParser.b64Normalize s) = none →
        SubscriptionParser.decode_base64 s = []) ∧
    SubscriptionParser.decode_base64 (pstr "") = [] ∧
    SubscriptionParser.decode_base64 (pstr "/w==") =
      SubscriptionParser.decode_base64 (pstr "") ∧
    pstr "/w==" ≠ pstr "" := by
  refine ⟨?_, rfl, rfl, by decide⟩
  intro s h
  unfold SubscriptionParser.decode_base64
  rw [h]

/-- C10 witness: the hypothesis of the universally quantified part is
satisfiable — `"/w=="` makes the decode pipeline fail, and the theorem then
yields `""`. -/
theorem C10_decode_base64_total_witness :
    SubscriptionParser.b64TryDecode (SubscriptionParser.b64Normalize (pstr "/w==")) =
      none ∧
    SubscriptionParser.decode_base64 (pstr "/w==") = [] :=
  ⟨rfl, C10_decode_base64_total.1 (pstr "/w==") rfl⟩

/-! ## Claim C2 — decoders never raise

`parse_vless_link` (`src/server.py` 321-388) is the one decoder whose body
is not wrapped in `try/except`; `parsed.port` raises `ValueError` on a
non-numeric port, so the claim is right and the code has a bug. -/

/-- C2 (code_bug): on the link `vless://u@h:abc` (malformed, non-numeric
port) `parse_vless_link` raises `ValueError` out of `parsed.port` instead
of returning `None`; every sibling decoder wraps its body in `try/except`,
so the spec's "never raises" is the evident intent. -/
theorem C2_parse_vless_link_raises :
    Server.parse_vless_link (pstr "vless://u@h:abc") = .error () ∧
    SubscriptionParser.parse_trojan (pstr "trojan://pw@h:abc#n") = none := by
  exact ⟨rfl, rfl⟩

/-! ## Claim C3 — the plain-text fallback of the content sniffer

In `parse_content` (`src/merge_config.py` 360-416) the `except` branch
that would fall back to the raw blob is unreachable for invalid base64,
because `decode_base64` already swallows its own exceptions and returns
`""`; a plain-text link list that is not valid base64 therefore produces
zero lines in step 3 and the whole blob is dropped. -/

/-- A model of `yaml.safe_load` adequate for the C3 failing input: the blob
is a plain scalar, so YAML returns a string (not a dict with `proxies`). -/
def yamlScalarStub : Str → Except Unit (Option PyVal) :=
  fun s => .ok (some (.vstr s))

/-- A model of `json.loads` that always raises (never consulted by the C3
failing input, whose line starts with `trojan://`). -/
def jsonFailStub : Str → Except Unit PyVal := fun _ => .error ()

/-- The C3 failing input: a one-line plain-text link list that is not
valid base64. -/
def c3Input : Str := pstr "trojan://pw@h:1#n"

/-- C3 (code_bug): the blob `"trojan://pw@h:1#n"` is a plain-text link list
whose single line decodes fine under the trojan decoder, yet
`parse_content` returns the empty dict: `decode_base64` maps the non-base64
blob to `""`, the `except` fallback to the raw blob never runs, and step 3
iterates over zero lines. -/
theorem C3_linelist_dropped :
    SubscriptionParser.parse_content yamlScalarStub jsonFailStub c3Input =
      .vdict [] ∧
    SubscriptionParser.decode_base64 c3Input = [] ∧
    SubscriptionParser.parse_trojan c3Input =
      some [(pstr "name", .vstr (pstr "n")),
            (pstr "type", .vstr (pstr "trojan")),
            (pstr "server", .vstr (pstr "h")),
            (pstr "port", .vint 1),
            (pstr "password", .vstr (pstr "pw")),
            (pstr "udp", .vbool true),
            (pstr "skip-cert-verify", .vbool true)] := by
  exact ⟨rfl, rfl, rfl⟩

/-! ## Claim C5 — IPv6 bracket unwrapping

Only `parse_hysteria2` (`src/merge_config.py` 325-332) checks for `']:'`
and strips brackets; `parse_trojan` (lines 142-145) — which also accepts
the `user@host:port` form — does a bare `rsplit(':', 1)` and keeps the
brackets in `server`. -/

/-- The spec's own IPv6 example link. -/
def hy2V6Link : Str := pstr "hysteria2://pw@[2001:db8::1]:443?sni=x.com#n"

/-- A trojan link with the same bracketed IPv6 host. -/
def trojanV6Link : Str := pstr "trojan://pw@[2001:db8::1]:443#n"

/-- The record `parse_trojan` produces for `trojanV6Link`. -/
def trojanV6Rec : Dict :=
  (SubscriptionParser.parse_trojan trojanV6Link).getD []

/-- C5 counterexample: `parse_trojan` accepts the `user@host:port` form but
does **not** unwrap a bracketed IPv6 literal — the decoded `server` keeps
its brackets, contradicting the claim's "every scheme decoder that accepts
a user@host:port form". -/
theorem C5_trojan_keeps_brackets :
    SubscriptionParser.parse_trojan trojanV6Link = some trojanV6Rec ∧
    dlookup trojanV6Rec (pstr "server") = some (.vstr (pstr "[2001:db8::1]")) ∧
    pstr "[2001:db8::1]" ≠ pstr "2001:db8::1" := by
  exact ⟨rfl, rfl, by decide⟩

/-- C5 (corrected): the hysteria2 decoder does unwrap bracketed IPv6
literals exactly as the spec's example demands (server `2001:db8::1`
without brackets, port 443), while the trojan decoder splits on the last
colon and keeps the brackets. -/
theorem C5_hysteria2_unwraps :
    SubscriptionParser.parse_hysteria2 hy2V6Link =
      some [(pstr "name", .vstr (pstr "n")),
            (pstr "type", .vstr (pstr "hysteria2")),
            (pstr "server", .vstr (pstr "2001:db8::1")),
            (pstr "port", .vint 443),
            (pstr "password", .vstr (pstr "pw")),
            (pstr "udp", .vbool true),
            (pstr "obfs", .vstr (pstr "none")),
            (pstr "sni", .vstr (pstr "x.com"))] := by
  exact rfl

/-! ## Claim C4 — decode-time record invariants

No decoder range-checks the port or requires a non-empty name/server:
`int(port)` accepts any integer text and the record is returned as-is. -/

/-- An ss link whose port is out of range. -/
def ssBigPortLink : Str := pstr "ss://YWVzLTI1Ni1nY206cGFzcw==@h:99999#n"

/-- The record `parse_ss` produces for `ssBigPortLink`. -/
def ssBigPortRec : Dict :=
  (SubscriptionParser.parse_ss ssBigPortLink).getD []

/-- C4 counterexample: `parse_ss` returns (rather than discards) a record
whose port, 99999, is outside 1–65535. -/
theorem C4_port_not_range_checked :
    SubscriptionParser.parse_ss ssBigPortLink = some ssBigPortRec ∧
    dlookup ssBigPortRec (pstr "port") = some (.vint 99999) ∧
    ¬ ((1 : Int) ≤ 99999 ∧ (99999 : Int) ≤ 65535) := by
  exact ⟨rfl, rfl, by decide⟩

/-- C4 (corrected): what the decoders do guarantee is structural — every
record `parse_ss` returns carries the fixed kind tag `"ss"`, an integer
port (whatever `int()` accepted, with no range check) and the `udp` flag;
emptiness of `name`/`server` and the port range are not validated. -/
theorem C4_decoder_shape (s : Str) (d : Dict)
    (h : SubscriptionParser.parse_ss s = some d) :
    dlookup d (pstr "type") = some (.vstr (pstr "ss")) ∧
    (∃ n : Int, dlookup d (pstr "port") = some (.vint n)) ∧
    dlookup d (pstr "udp") = some (.vbool true) := by
  unfold SubscriptionParser.parse_ss at h
  split at h
  · exact Option.noConfusion h
  · split at h
    · exact Option.noConfusion h
    · rename_i portN _
      rw [Option.some_inj] at h
      subst h
      exact ⟨rfl, ⟨portN, rfl⟩, rfl⟩

/-- C4 witness: the shape theorem applied to a concrete decode. -/
theorem C4_decoder_shape_witness :
    SubscriptionParser.parse_ss ssBigPortLink = some ssBigPortRec ∧
    dlookup ssBigPortRec (pstr "type") = some (.vstr (pstr "ss")) :=
  ⟨rfl, (C4_decoder_shape ssBigPortLink ssBigPortRec rfl).1⟩

/-! ## Claim C1 — the encode/decode round trip

`proxy_to_link` (`src/server.py` 1592-1752) re-emits only a subset of the
fields the decoders populate.  For vless, `alpn` (populated by
`parse_vless_link` from the `alpn` query key) is never written back, so the
round trip loses it; the spec's own ws/tls/sni example, on the other hand,
survives exactly. -/

/-- Seed link producing a vless record with an `alpn` field. -/
def vlessAlpnLink : Str := pstr "vless://u@h:1?security=tls&sni=e&alpn=h2#n"

/-- The decoded record of `vlessAlpnLink` (which carries `alpn`). -/
def vlessAlpnRec : Dict :=
  match Server.parse_vless_link vlessAlpnLink with
  | .ok (some d) => d
  | _ => []

/-- The record obtained by re-decoding the re-encoded `vlessAlpnRec`. -/
def vlessAlpnRec2 : Dict :=
  match Server.parse_vless_link (Server.proxy_to_link_vless vlessAlpnRec) with
  | .ok (some d) => d
  | _ => []

/-- C1 counterexample: a vless record that the decoder itself produced (so
its fields are all within the scheme's grammar) does not survive
encode-then-decode — the `alpn` field is dropped by `proxy_to_link`, so the
round-tripped record differs from the original. -/
theorem C1_roundtrip_fails_alpn :
    Server.parse_vless_link vlessAlpnLink = .ok (some vlessAlpnRec) ∧
    Server.parse_vless_link (Server.proxy_to_link_vless vlessAlpnRec) =
      .ok (some vlessAlpnRec2) ∧
    dlookup vlessAlpnRec (pstr "alpn") = some (.vlist [.vstr (pstr "h2")]) ∧
    dlookup vlessAlpnRec2 (pstr "alpn") = none ∧
    vlessAlpnRec2 ≠ vlessAlpnRec := by
  refine ⟨rfl, rfl, rfl, rfl, ?_⟩
  intro h
  have h1 : dlookup vlessAlpnRec2 (pstr "alpn") = dlookup vlessAlpnRec (pstr "alpn") := by
    rw [h]
  rw [show dlookup vlessAlpnRec2 (pstr "alpn") = none from rfl] at h1
  exact Option.noConfusion h1

/-- The spec's round-trip example: a vless record with `network=ws`,
`tls=true`, `sni=example.com`. -/
def vlessWsLink : Str :=
  pstr "vless://u@h:443?type=ws&security=tls&sni=example.com&path=/ws#node"

/-- The decoded record of `vlessWsLink`. -/
def vlessWsRec : Dict :=
  match Server.parse_vless_link vlessWsLink with
  | .ok (some d) => d
  | _ => []

/-- C1 (corrected): the round trip holds exactly for records whose fields
the encoder re-emits — in particular the claim's own example (vless with
`network=ws`, `tls=true`, `sni=example.com`) survives encode-then-decode
unchanged — but not for every decoder-producible record, since fields such
as vless `alpn` are dropped by the encoder. -/
theorem C1_roundtrip_ws_example :
    Server.parse_vless_link vlessWsLink = .ok (some vlessWsRec) ∧
    Server.parse_vless_link (Server.proxy_to_link_vless vlessWsRec) =
      .ok (some vlessWsRec) ∧
    dlookup vlessWsRec (pstr "network") = some (.vstr (pstr "ws")) ∧
    dlookup vlessWsRec (pstr "tls") = some (.vbool true) ∧
    dlookup vlessWsRec (pstr "servername") = some (.vstr (pstr "example.com")) := by
  exact ⟨rfl, rfl, rfl, rfl, rfl⟩

/-! ## Claim C9 — `transform_name` is a frame-preserving copy

`transform_name` (`src/merge_config.py` 590-626) builds `new_proxy =
proxy.copy()` and assigns only `new_proxy['name']`; in this embedding the
input is a value and cannot be mutated, and the theorem pins down the
remaining content of the claim: the result is the input with exactly the
`name` entry replaced by the documented `"{flag} {tag} {clean}"` /
`"{flag} {clean}"` format. -/

/-- C9 (confirmed): for any record with a string `name` (and a string or
absent `server`), `transform_name` returns the input dict with only its
`name` entry replaced; every other key reads exactly as in the input, and
the new name is `flag ++ " " ++ clean` when a known source tag is already
present in the cleaned name, else `flag ++ " " ++ tag ++ " " ++ clean`. -/
theorem C9_transform_name_copy (geo : Str → Option Str) (p : Dict)
    (src n sv : Str)
    (hname : dlookup p (pstr "name") = some (.vstr n))
    (hsv : CountryGrouper.strField p (pstr "server") = some sv) :
    NameTransformer.transform_name geo p src =
      some (dset p (pstr "name") (.vstr
        (if NameTransformer.hasKnownTag (NameTransformer.cleanName n) then
          NameTransformer.identify_flag geo n sv ++ pstr " " ++
            NameTransformer.cleanName n
        else
          NameTransformer.identify_flag geo n sv ++ pstr " " ++
            NameTransformer.sLookupD NameTransformer.SOURCE_NAME_MAP src src ++
            pstr " " ++ NameTransformer.cleanName n))) ∧
    (∀ k : Str, k ≠ pstr "name" →
      dlookup (dset p (pstr "name") (.vstr
        (if NameTransformer.hasKnownTag (NameTransformer.cleanName n) then
          NameTransformer.identify_flag geo n sv ++ pstr " " ++
            NameTransformer.cleanName n
        else
          NameTransformer.identify_flag geo n sv ++ pstr " " ++
            NameTransformer.sLookupD NameTransformer.SOURCE_NAME_MAP src src ++
            pstr " " ++ NameTransformer.cleanName n))) k = dlookup p k) := by
  constructor
  · have hne : ¬ (List.isEmpty p = true ∨ (dlookup p (pstr "name")).isNone = true) := by
      rintro (h1 | h2)
      · rw [List.isEmpty_iff] at h1
        rw [h1] at hname
        exact Option.noConfusion hname
      · rw [hname] at h2
        simp at h2
    unfold NameTransformer.transform_name
    rw [if_neg hne, hname]
    unfold CountryGrouper.strField at hsv
    rcases hdsv : dlookup p (pstr "server") with _ | v
    · rw [hdsv] at hsv
      have hsv' : ([] : Str) = sv := Option.some_inj.mp hsv
      subst hsv'
      rfl
    · rw [hdsv] at hsv
      rcases v with s | _ | _ | _ | _ | _
      · have hsv' : s = sv := Option.some_inj.mp hsv
        subst hsv'
        rfl
      all_goals exact Option.noConfusion hsv
  · intro k hk
    exact dlookup_dset_ne p (pstr "name") _ k hk

/-- The concrete input record for the C9 witness. -/
def pW9 : Dict :=
  [(pstr "name", .vstr (pstr "🇯🇵Tokyo 01")),
   (pstr "server", .vstr (pstr "1.2.3.4")),
   (pstr "port", .vint 443)]

/-- The record `transform_name` returns for `pW9` with source tag
`Alpha`. -/
def qW9 : Dict :=
  [(pstr "name", .vstr (pstr "🇯🇵 Alpha Tokyo 01")),
   (pstr "server", .vstr (pstr "1.2.3.4")),
   (pstr "port", .vint 443)]

set_option maxRecDepth 100000 in
/-- C9 witness: the copy theorem applied to a concrete record; the name is
rewritten to `🇯🇵 Alpha Tokyo 01` while the other fields read unchanged. -/
theorem C9_transform_name_copy_witness :
    NameTransformer.transform_name (fun _ => none) pW9 (pstr "Alpha") =
      some qW9 ∧
    dlookup qW9 (pstr "port") = dlookup pW9 (pstr "port") := by
  have h := C9_transform_name_copy (fun _ => none) pW9 (pstr "Alpha")
    (pstr "🇯🇵Tokyo 01") (pstr "1.2.3.4") rfl rfl
  exact ⟨h.1.trans rfl, h.2 (pstr "port") (by decide)⟩

/-! ## Claim C8 — a leading flag glyph strictly dominates keyword rules

Priority 1 of `identify_country` (`src/merge_config.py` 867-871) returns
as soon as the name starts with some table flag; since all table flags are
distinct two-character strings, at most one of them can be a prefix of a
given name, so the first-match loop returns exactly that country no matter
what keywords appear later in the name. -/

/-- Two prefixes of the same list with equal lengths are equal. -/
theorem eq_of_prefix_of_length {f g s : Str} (hf : f <+: s) (hg : g <+: s)
    (hlen : f.length = g.length) : f = g := by
  rw [List.prefix_iff_eq_take] at hf hg
  rw [hf, hg, hlen]

/-- The first-match loop of priority 1: if every flag in the table has
length 2, the flags are pairwise distinct, and the name starts with the
flag of entry `(A, ps)`, then the loop stops exactly at that entry. -/
theorem find_flag_entry (tbl : List (Str × List Str)) (A : Str)
    (ps : List Str) (name : Str)
    (hlen2 : ∀ kv ∈ tbl, (kv.2.headD []).length = 2)
    (hnd : (tbl.map fun kv => kv.2.headD []).Nodup)
    (hA : (A, ps) ∈ tbl)
    (hpre : (ps.headD []).isPrefixOf name = true) :
    tbl.find? (fun kv => (kv.2.headD []).isPrefixOf name) = some (A, ps) := by
  induction tbl with
  | nil => exact absurd hA (List.not_mem_nil _)
  | cons kv rest ih =>
      rcases List.mem_cons.mp hA with heq | hmem
      · subst heq
        exact List.find?_cons_of_pos _ hpre
      · have hne : ((kv.2.headD []).isPrefixOf name) = false := by
          by_contra hc
          rw [Bool.not_eq_false] at hc
          have h1 : kv.2.headD [] = ps.headD [] :=
            eq_of_prefix_of_length
              (List.isPrefixOf_iff_prefix.mp hc)
              (List.isPrefixOf_iff_prefix.mp hpre)
              (by
                rw [hlen2 kv (List.mem_cons_self kv rest),
                  hlen2 (A, ps) (List.mem_cons_of_mem kv hmem)])
          rw [List.map_cons, List.nodup_cons] at hnd
          exact hnd.1 (h1 ▸ List.mem_map_of_mem (fun kv => kv.2.headD []) hmem)
        rw [List.find?_cons_of_neg _ (by rw [hne]; exact Bool.false_ne_true)]
        exact ih (fun kv hk => hlen2 kv (List.mem_cons_of_mem _ hk))
          (by rw [List.map_cons, List.nodup_cons] at hnd; exact hnd.2)
          hmem

/-- C8 (confirmed): classification is a pure function of its inputs, and a
name that *starts with* the flag glyph of table country `A` is classified
as `A` by `identify_country`, regardless of anything else in the name — in
particular regardless of keywords of any other country `B` occurring
later.  (The keyword-of-B condition of the claim is not needed: a leading
flag wins unconditionally.) -/
theorem C8_leading_flag_dominates (name server : Str)
    (geo : Str → Option Str) (A : Str) (ps : List Str)
    (hA : (A, ps) ∈ CountryGrouper.COUNTRY_PATTERNS)
    (hpre : (ps.headD []).isPrefixOf name = true) :
    (CountryGrouper.identify_country geo CountryGrouper.COUNTRY_PATTERNS
      name server).1 = A := by
  unfold CountryGrouper.identify_country
  rw [find_flag_entry CountryGrouper.COUNTRY_PATTERNS A ps name
    (by decide) (by decide) hA hpre]

set_option maxRecDepth 10000 in
/-- C8 witness: `🇯🇵 US node` starts with the Japan flag and contains the
United States keyword `US`, and is classified as Japan. -/
theorem C8_leading_flag_dominates_witness :
    (CountryGrouper.identify_country (fun _ => none)
      CountryGrouper.COUNTRY_PATTERNS (pstr "🇯🇵 US node") (pstr "")).1 =
      pstr "🇯🇵 日本" ∧
    CountryGrouper.kwTestCI (pstr "🇯🇵 US node") (pstr "US") = true := by
  refine ⟨?_, by decide⟩
  exact C8_leading_flag_dominates (pstr "🇯🇵 US node") (pstr "")
    (fun _ => none) (pstr "🇯🇵 日本")
    [pstr "🇯🇵", pstr "JP", pstr "Japan", pstr "日本"]
    (by decide) (by decide)

/-! ## Claims C6 and C7 — group synthesis invariants

Supporting lemmas about the bucket accumulator (`qsAdd`), the grouping loop
(`gbcGo`) and the stable descending sort (`insDesc`/`isortDesc`). -/

/-- All member names held in a bucket map, in bucket order. -/
def joinVals (g : List (Str × List Str)) : List Str :=
  (g.map Prod.snd).flatten

/-- The name of a record as `group_by_country` reads it
(`proxy.get('name', '')` restricted to string values). -/
def recNameD (p : Dict) : Str :=
  (CountryGrouper.strField p (pstr "name")).getD []

theorem qsAdd_join_perm (g : List (Str × List Str)) (k : Str) (v : Str) :
    List.Perm (joinVals (qsAdd g k v)) (joinVals g ++ [v]) := by
  induction g with
  | nil => simp [qsAdd, joinVals]
  | cons kv rest ih =>
      rcases kv with ⟨k0, vs⟩
      by_cases h : k0 = k
      · simp only [qsAdd, if_pos h, joinVals, List.map_cons, List.flatten_cons]
        rw [List.append_assoc, List.append_assoc]
        exact List.Perm.append_left vs List.perm_append_comm
      · simp only [qsAdd, if_neg h, joinVals, List.map_cons, List.flatten_cons]
        rw [List.append_assoc]
        exact List.Perm.append_left vs ih

theorem qsAdd_keys_mem (g : List (Str × List Str)) (k : Str) (v : Str)
    (h : k ∈ g.map Prod.fst) :
    (qsAdd g k v).map Prod.fst = g.map Prod.fst := by
  induction g with
  | nil => exact absurd h (List.not_mem_nil _)
  | cons kv rest ih =>
      rcases kv with ⟨k0, vs⟩
      by_cases hk : k0 = k
      · simp [qsAdd, hk]
      · rcases List.mem_cons.mp h with h1 | h1
        · exact absurd h1.symm hk
        · simp [qsAdd, hk, ih h1]

theorem qsAdd_keys_new (g : List (Str × List Str)) (k : Str) (v : Str)
    (h : ¬ k ∈ g.map Prod.fst) :
    (qsAdd g k v).map Prod.fst = g.map Prod.fst ++ [k] := by
  induction g with
  | nil => simp [qsAdd]
  | cons kv rest ih =>
      rcases kv with ⟨k0, vs⟩
      by_cases hk : k0 = k
      · exact absurd (hk ▸ List.mem_cons_self k0 _) h
      · have h' : ¬ k ∈ rest.map Prod.fst := fun hm =>
          h (List.mem_cons_of_mem _ hm)
        simp [qsAdd, hk, ih h']

theorem qsAdd_keys_nodup (g : List (Str × List Str)) (k : Str) (v : Str)
    (h : (g.map Prod.fst).Nodup) : ((qsAdd g k v).map Prod.fst).Nodup := by
  by_cases hm : k ∈ g.map Prod.fst
  · rw [qsAdd_keys_mem g k v hm]; exact h
  · rw [qsAdd_keys_new g k v hm]
    rw [List.nodup_append]
    exact ⟨h, List.nodup_singleton k,
      fun a ha hb => hm (by rwa [List.mem_singleton.mp hb] at ha)⟩

theorem qsAdd_vals_ne (g : List (Str × List Str)) (k : Str) (v : Str)
    (h : ∀ kv ∈ g, kv.2 ≠ []) : ∀ kv ∈ qsAdd g k v, kv.2 ≠ [] := by
  induction g with
  | nil =>
      intro kv hkv
      rw [List.mem_singleton.mp hkv]
      simp
  | cons kv0 rest ih =>
      rcases kv0 with ⟨k0, vs⟩
      by_cases hk : k0 = k
      · intro kv hkv
        simp only [qsAdd, if_pos hk] at hkv
        rcases List.mem_cons.mp hkv with h1 | h1
        · rw [h1]; simp
        · exact h kv (List.mem_cons_of_mem _ h1)
      · intro kv hkv
        simp only [qsAdd, if_neg hk] at hkv
        rcases List.mem_cons.mp hkv with h1 | h1
        · rw [h1]; exact h (k0, vs) (List.mem_cons_self _ _)
        · exact ih (fun kv2 hkv2 => h kv2 (List.mem_cons_of_mem _ hkv2)) kv h1

/-- The step equation of the grouping loop when both fields read as
strings. -/
theorem gbcGo_cons (geo : Str → Option Str) (p : Dict) (rest : List Dict)
    (pats g : List (Str × List Str)) (nm sv : Str)
    (hn : CountryGrouper.strField p (pstr "name") = some nm)
    (hs : CountryGrouper.strField p (pstr "server") = some sv) :
    CountryGrouper.gbcGo geo (p :: rest) pats g =
      CountryGrouper.gbcGo geo rest
        (CountryGrouper.identify_country geo pats nm sv).2
        (qsAdd g (CountryGrouper.identify_country geo pats nm sv).1 nm) := by
  simp only [CountryGrouper.gbcGo]
  rw [hn, hs]

/-- The grouping loop invariant: on success, the bucket contents are a
permutation of the accumulated bucket contents plus the record names in
order; distinct keys stay distinct; buckets stay non-empty. -/
theorem gbcGo_inv (geo : Str → Option Str) (ps : List Dict) :
    ∀ pats g cg, CountryGrouper.gbcGo geo ps pats g = some cg →
      List.Perm (joinVals cg) (joinVals g ++ ps.map recNameD) ∧
      ((g.map Prod.fst).Nodup → (cg.map Prod.fst).Nodup) ∧
      ((∀ kv ∈ g, kv.2 ≠ []) → ∀ kv ∈ cg, kv.2 ≠ []) := by
  induction ps with
  | nil =>
      intro pats g cg h
      unfold CountryGrouper.gbcGo at h
      rw [Option.some_inj] at h
      subst h
      exact ⟨by simp, id, id⟩
  | cons p rest ih =>
      intro pats g cg h
      rcases hn : CountryGrouper.strField p (pstr "name") with _ | name
      · unfold CountryGrouper.gbcGo at h
        rw [hn] at h
        exact Option.noConfusion h
      rcases hs : CountryGrouper.strField p (pstr "server") with _ | server
      · unfold CountryGrouper.gbcGo at h
        rw [hn, hs] at h
        exact Option.noConfusion h
      rw [gbcGo_cons geo p rest pats g name server hn hs] at h
      obtain ⟨hperm, hnd, hne⟩ := ih
        (CountryGrouper.identify_country geo pats name server).2
        (qsAdd g (CountryGrouper.identify_country geo pats name server).1 name)
        cg h
      set country := (CountryGrouper.identify_country geo pats name server).1
      refine ⟨?_, ?_, ?_⟩
      · have hq := qsAdd_join_perm g country name
        have hrec : recNameD p = name := by
          unfold recNameD
          rw [hn]
          rfl
        have h2 : List.Perm (joinVals (qsAdd g country name) ++ rest.map recNameD)
            ((joinVals g ++ [name]) ++ rest.map recNameD) :=
          List.Perm.append hq (List.Perm.refl _)
        have h3 := hperm.trans h2
        rw [List.append_assoc] at h3
        rw [List.map_cons, hrec]
        exact h3
      · intro hg
        exact hnd (qsAdd_keys_nodup g country name hg)
      · intro hg
        exact hne (qsAdd_vals_ne g country name hg)

theorem alookupL_mem {g : List (Str × List Str)} {c : Str} {v : List Str}
    (h : CountryGrouper.alookupL g c = some v) : (c, v) ∈ g := by
  induction g with
  | nil => exact Option.noConfusion h
  | cons kv rest ih =>
      rcases kv with ⟨k0, v0⟩
      by_cases hk : k0 = c
      · subst hk
        unfold CountryGrouper.alookupL at h
        rw [if_pos rfl, Option.some_inj] at h
        subst h
        exact List.mem_cons_self _ _
      · unfold CountryGrouper.alookupL at h
        rw [if_neg hk] at h
        exact List.mem_cons_of_mem _ (ih h)

theorem mem_keys_alookupL {g : List (Str × List Str)} {c : Str}
    (h : c ∈ g.map Prod.fst) : ∃ v, CountryGrouper.alookupL g c = some v := by
  induction g with
  | nil => exact absurd h (List.not_mem_nil _)
  | cons kv rest ih =>
      rcases kv with ⟨k0, v0⟩
      by_cases hk : k0 = c
      · exact ⟨v0, by unfold CountryGrouper.alookupL; rw [if_pos hk]⟩
      · rcases List.mem_cons.mp h with h1 | h1
        · exact absurd h1.symm hk
        · obtain ⟨v, hv⟩ := ih h1
          exact ⟨v, by unfold CountryGrouper.alookupL; rw [if_neg hk]; exact hv⟩

/-- Under distinct keys, looking each key back up returns exactly the
bucket stored with it. -/
theorem keys_map_bucket (cg : List (Str × List Str))
    (hnd : (cg.map Prod.fst).Nodup) :
    (cg.map Prod.fst).map (fun c => (CountryGrouper.alookupL cg c).getD []) =
      cg.map Prod.snd := by
  induction cg with
  | nil => rfl
  | cons kv rest ih =>
      rcases kv with ⟨k0, v0⟩
      rw [List.map_cons, List.nodup_cons] at hnd
      have htail : (rest.map Prod.fst).map
          (fun c => (CountryGrouper.alookupL ((k0, v0) :: rest) c).getD []) =
          (rest.map Prod.fst).map
          (fun c => (CountryGrouper.alookupL rest c).getD []) := by
        refine List.map_congr_left ?_
        intro c hc
        have hck : ¬ k0 = c := fun he => hnd.1 (he ▸ hc)
        simp only [CountryGrouper.alookupL]
        rw [if_neg hck]
      simp only [List.map_cons]
      rw [htail, ih hnd.2]
      have hhead : (CountryGrouper.alookupL ((k0, v0) :: rest) k0).getD [] = v0 := by
        simp only [CountryGrouper.alookupL, if_true]
        rfl
      rw [hhead]

theorem insDesc_perm (keyFn : Str → Nat) (x : Str) (l : List Str) :
    List.Perm (ProxyGroupGenerator.insDesc keyFn x l) (x :: l) := by
  induction l with
  | nil => exact List.Perm.refl _
  | cons y l ih =>
      unfold ProxyGroupGenerator.insDesc
      by_cases h : keyFn y ≤ keyFn x
      · rw [if_pos h]
      · rw [if_neg h]
        exact (List.Perm.cons y ih).trans (List.Perm.swap x y l)

theorem isortDesc_perm (keyFn : Str → Nat) (l : List Str) :
    List.Perm (ProxyGroupGenerator.isortDesc keyFn l) l := by
  induction l with
  | nil => exact List.Perm.refl _
  | cons x l ih =>
      unfold ProxyGroupGenerator.isortDesc
      exact (insDesc_perm keyFn x _).trans (List.Perm.cons x ih)

theorem insDesc_pairwise (keyFn : Str → Nat) (x : Str) (l : List Str)
    (h : l.Pairwise fun a b => keyFn b ≤ keyFn a) :
    (ProxyGroupGenerator.insDesc keyFn x l).Pairwise
      fun a b => keyFn b ≤ keyFn a := by
  induction l with
  | nil =>
      exact List.Pairwise.cons (fun y hy => absurd hy (List.not_mem_nil y))
        List.Pairwise.nil
  | cons y l ih =>
      rw [List.pairwise_cons] at h
      unfold ProxyGroupGenerator.insDesc
      by_cases hxy : keyFn y ≤ keyFn x
      · rw [if_pos hxy, List.pairwise_cons]
        refine ⟨?_, List.pairwise_cons.mpr h⟩
        intro z hz
        rcases List.mem_cons.mp hz with h1 | h1
        · rw [h1]; exact hxy
        · exact (h.1 z h1).trans hxy
      · rw [if_neg hxy, List.pairwise_cons]
        refine ⟨?_, ih h.2⟩
        intro z hz
        rcases List.mem_cons.mp ((insDesc_perm keyFn x l).mem_iff.mp hz)
          with h1 | h1
        · rw [h1]; exact Nat.le_of_lt (Nat.lt_of_not_le hxy)
        · exact h.1 z h1

theorem isortDesc_pairwise (keyFn : Str → Nat) (l : List Str) :
    (ProxyGroupGenerator.isortDesc keyFn l).Pairwise
      fun a b => keyFn b ≤ keyFn a := by
  induction l with
  | nil => exact List.Pairwise.nil
  | cons x l ih =>
      unfold ProxyGroupGenerator.isortDesc
      exact insDesc_pairwise keyFn x _ ih

theorem insDesc_filter_eq (keyFn : Str → Nat) (n : Nat) (x : Str)
    (l : List Str) (hx : keyFn x = n) :
    (ProxyGroupGenerator.insDesc keyFn x l).filter (fun c => keyFn c == n) =
      x :: l.filter (fun c => keyFn c == n) := by
  induction l with
  | nil =>
      show List.filter (fun c => keyFn c == n) [x] = [x]
      rw [List.filter_cons, if_pos (by simp [hx])]
      rfl
  | cons y l ih =>
      unfold ProxyGroupGenerator.insDesc
      by_cases hxy : keyFn y ≤ keyFn x
      · rw [if_pos hxy, List.filter_cons, if_pos (by simp [hx])]
      · have hyn : ¬ ((keyFn y == n) = true) := by
          rw [Nat.not_le] at hxy
          rw [hx] at hxy
          simp [Nat.ne_of_gt hxy]
        rw [if_neg hxy, List.filter_cons, if_neg hyn, ih, List.filter_cons,
          if_neg hyn]

theorem insDesc_filter_ne (keyFn : Str → Nat) (n : Nat) (x : Str)
    (l : List Str) (hx : ¬ keyFn x = n) :
    (ProxyGroupGenerator.insDesc keyFn x l).filter (fun c => keyFn c == n) =
      l.filter (fun c => keyFn c == n) := by
  induction l with
  | nil =>
      show List.filter (fun c => keyFn c == n) [x] = []
      rw [List.filter_cons, if_neg (by simp [hx])]
      rfl
  | cons y l ih =>
      unfold ProxyGroupGenerator.insDesc
      by_cases hxy : keyFn y ≤ keyFn x
      · rw [if_pos hxy, List.filter_cons, if_neg (by simp [hx]),
          List.filter_cons]
      · rw [if_neg hxy, List.filter_cons, List.filter_cons, ih]

/-- Stability of the sort: the sublist at any fixed key value is exactly
the original (first-seen) sublist at that key value. -/
theorem isortDesc_filter (keyFn : Str → Nat) (n : Nat) (l : List Str) :
    (ProxyGroupGenerator.isortDesc keyFn l).filter (fun c => keyFn c == n) =
      l.filter (fun c => keyFn c == n) := by
  induction l with
  | nil => rfl
  | cons x l ih =>
      unfold ProxyGroupGenerator.isortDesc
      by_cases hx : keyFn x = n
      · rw [insDesc_filter_eq keyFn n x _ hx, ih, List.filter_cons,
          if_pos (by simp [hx])]
      · rw [insDesc_filter_ne keyFn n x _ hx, ih, List.filter_cons,
          if_neg (by simp [hx])]

theorem vstr_roundtrip (l : List Str) :
    (l.map PyVal.vstr).filterMap
      (fun v => match v with | .vstr s => some s | _ => none) = l := by
  induction l with
  | nil => rfl
  | cons x l ih =>
      rw [List.map_cons, List.filterMap_cons]
      exact congrArg (x :: ·) ih

theorem groupName_mk (cg : List (Str × List Str)) (c : Str) :
    ProxyGroupGenerator.groupName (ProxyGroupGenerator.mkCountryGroup cg c) =
      c := rfl

theorem groupMembers_mk (cg : List (Str × List Str)) (c : Str) :
    ProxyGroupGenerator.groupMembers (ProxyGroupGenerator.mkCountryGroup cg c) =
      (CountryGrouper.alookupL cg c).getD [] := by
  have h : dlookup (ProxyGroupGenerator.mkCountryGroup cg c) (pstr "proxies") =
      some (.vlist (((CountryGrouper.alookupL cg c).getD []).map .vstr)) := rfl
  unfold ProxyGroupGenerator.groupMembers
  rw [h]
  exact vstr_roundtrip _

/-- Every country in `sorted_countries cg` has a non-empty bucket in
`cg`. -/
theorem sorted_countries_mem {cg : List (Str × List Str)} {c : Str}
    (h : c ∈ ProxyGroupGenerator.sorted_countries cg) :
    ∃ b, CountryGrouper.alookupL cg c = some b ∧ b ≠ [] := by
  unfold ProxyGroupGenerator.sorted_countries at h
  have h1 := (isortDesc_perm _ _).mem_iff.mp h
  rw [List.mem_filter] at h1
  obtain ⟨v, hv⟩ := mem_keys_alookupL h1.1
  refine ⟨v, hv, ?_⟩
  intro hnil
  have h2 := h1.2
  rw [hv] at h2
  subst hnil
  simp at h2

/-- When every bucket is non-empty, the non-empty filter keeps every key. -/
theorem keys_filter_all {cg : List (Str × List Str)}
    (hne : ∀ kv ∈ cg, kv.2 ≠ []) :
    (cg.map Prod.fst).filter
      (fun c => !((CountryGrouper.alookupL cg c).getD []).isEmpty) =
      cg.map Prod.fst := by
  rw [List.filter_eq_self]
  intro c hc
  obtain ⟨v, hv⟩ := mem_keys_alookupL hc
  have hvne : v ≠ [] := hne (c, v) (alookupL_mem hv)
  rw [hv]
  rcases v with _ | ⟨a, t⟩
  · exact absurd rfl hvne
  · rfl

/-- Under the `sorted_countries` membership facts, the per-country group
list is exactly one group per sorted country. -/
theorem pcGroups_eq_map (cg : List (Str × List Str)) (sc : List Str)
    (h : ∀ c ∈ sc, ∃ b, CountryGrouper.alookupL cg c = some b ∧ b ≠ []) :
    ProxyGroupGenerator.pcGroups cg sc =
      sc.map (ProxyGroupGenerator.mkCountryGroup cg) := by
  induction sc with
  | nil => rfl
  | cons c sc ih =>
      obtain ⟨b, hb, hbne⟩ := h c (List.mem_cons_self _ _)
      have hbe : ¬ (b.isEmpty = true) := by
        rcases b with _ | ⟨a, t⟩
        · exact absurd rfl hbne
        · simp
      simp only [ProxyGroupGenerator.pcGroups, hb, List.map_cons]
      rw [if_pos hbe]
      exact congrArg (ProxyGroupGenerator.mkCountryGroup cg c :: ·)
        (ih fun c hc => h c (List.mem_cons_of_mem _ hc))

/-- C6 (confirmed): for every aggregated record set, the per-country
select groups synthesized by `generate_groups` hold each record exactly
once — the concatenation of their member lists is a permutation of the
record names (nothing lost, nothing duplicated across groups) — and the
per-country group names are pairwise distinct, so each record name is
listed under exactly one country group.  `geo` is the external geolocation
collaborator. -/
theorem C6_groups_partition (geo : Str → Option Str) (ps : List Dict)
    (cg : List (Str × List Str)) (out : List Dict)
    (h1 : CountryGrouper.group_by_country geo ps = some cg)
    (h2 : ProxyGroupGenerator.generate_groups ps cg = some out) :
    List.Perm ((out.drop 4).flatMap ProxyGroupGenerator.groupMembers)
      (ps.map recNameD) ∧
    ((out.drop 4).map ProxyGroupGenerator.groupName).Nodup := by
  obtain ⟨hperm, hndf, hnef⟩ :=
    gbcGo_inv geo ps CountryGrouper.COUNTRY_PATTERNS [] cg h1
  have hnd : (cg.map Prod.fst).Nodup := hndf (by simp)
  have hne : ∀ kv ∈ cg, kv.2 ≠ [] :=
    hnef fun kv hk => absurd hk (List.not_mem_nil _)
  have hperm' : List.Perm (joinVals cg) (ps.map recNameD) := by
    rw [show joinVals [] = [] from rfl, List.nil_append] at hperm
    exact hperm
  unfold ProxyGroupGenerator.generate_groups at h2
  split at h2
  · rw [Option.some_inj] at h2
    subst h2
    have hdrop : (ProxyGroupGenerator.headGroups
        (ProxyGroupGenerator.sorted_countries cg) ++
        ProxyGroupGenerator.pcGroups cg
          (ProxyGroupGenerator.sorted_countries cg)).drop 4 =
        ProxyGroupGenerator.pcGroups cg
          (ProxyGroupGenerator.sorted_countries cg) := by
      have h4 := List.drop_left
        (ProxyGroupGenerator.headGroups (ProxyGroupGenerator.sorted_countries cg))
        (ProxyGroupGenerator.pcGroups cg (ProxyGroupGenerator.sorted_countries cg))
      rw [show (ProxyGroupGenerator.headGroups
        (ProxyGroupGenerator.sorted_countries cg)).length = 4 from rfl] at h4
      exact h4
    rw [hdrop, pcGroups_eq_map cg _ (fun c hc => sorted_countries_mem hc)]
    have hscperm : List.Perm (ProxyGroupGenerator.sorted_countries cg)
        (cg.map Prod.fst) := by
      unfold ProxyGroupGenerator.sorted_countries
      rw [keys_filter_all hne]
      exact isortDesc_perm _ _
    constructor
    · unfold List.flatMap
      rw [List.map_map]
      have hcomp : (ProxyGroupGenerator.groupMembers ∘
          ProxyGroupGenerator.mkCountryGroup cg) =
          fun c => (CountryGrouper.alookupL cg c).getD [] := by
        funext c
        exact groupMembers_mk cg c
      rw [hcomp]
      have hj : List.Perm
          (((ProxyGroupGenerator.sorted_countries cg).map
            (fun c => (CountryGrouper.alookupL cg c).getD [])).flatten)
          (((cg.map Prod.fst).map
            (fun c => (CountryGrouper.alookupL cg c).getD [])).flatten) :=
        (hscperm.map _).flatten
      rw [keys_map_bucket cg hnd] at hj
      exact hj.trans hperm'
    · rw [List.map_map]
      have hid : (ProxyGroupGenerator.groupName ∘
          ProxyGroupGenerator.mkCountryGroup cg) = fun c => c := by
        funext c
        exact groupName_mk cg c
      rw [hid, List.map_id']
      exact hscperm.symm.nodup hnd
  · exact Option.noConfusion h2

/-- C7 (confirmed): in the synthesized group list the per-country groups
(everything after the four head groups) appear in `sorted_countries`
order; that order is sorted by member count descending, and within any
fixed member count the countries appear exactly in first-seen (bucket
insertion) order. -/
theorem C7_groups_sorted (geo : Str → Option Str) (ps : List Dict)
    (cg : List (Str × List Str)) (out : List Dict)
    (h1 : CountryGrouper.group_by_country geo ps = some cg)
    (h2 : ProxyGroupGenerator.generate_groups ps cg = some out) :
    (out.drop 4).map ProxyGroupGenerator.groupName =
      ProxyGroupGenerator.sorted_countries cg ∧
    (ProxyGroupGenerator.sorted_countries cg).Pairwise
      (fun a b => ProxyGroupGenerator.bucketLen cg b ≤
        ProxyGroupGenerator.bucketLen cg a) ∧
    (∀ n : Nat, (ProxyGroupGenerator.sorted_countries cg).filter
        (fun c => ProxyGroupGenerator.bucketLen cg c == n) =
      ((cg.map Prod.fst).filter
        (fun c => !((CountryGrouper.alookupL cg c).getD []).isEmpty)).filter
        (fun c => ProxyGroupGenerator.bucketLen cg c == n)) := by
  refine ⟨?_, isortDesc_pairwise _ _, fun n => isortDesc_filter _ n _⟩
  unfold ProxyGroupGenerator.generate_groups at h2
  split at h2
  · rw [Option.some_inj] at h2
    subst h2
    have hdrop : (ProxyGroupGenerator.headGroups
        (ProxyGroupGenerator.sorted_countries cg) ++
        ProxyGroupGenerator.pcGroups cg
          (ProxyGroupGenerator.sorted_countries cg)).drop 4 =
        ProxyGroupGenerator.pcGroups cg
          (ProxyGroupGenerator.sorted_countries cg) := by
      have h4 := List.drop_left
        (ProxyGroupGenerator.headGroups (ProxyGroupGenerator.sorted_countries cg))
        (ProxyGroupGenerator.pcGroups cg (ProxyGroupGenerator.sorted_countries cg))
      rw [show (ProxyGroupGenerator.headGroups
        (ProxyGroupGenerator.sorted_countries cg)).length = 4 from rfl] at h4
      exact h4
    rw [hdrop, pcGroups_eq_map cg _ (fun c hc => sorted_countries_mem hc),
      List.map_map]
    have hid : (ProxyGroupGenerator.groupName ∘
        ProxyGroupGenerator.mkCountryGroup cg) = fun c => c := by
      funext c
      exact groupName_mk cg c
    rw [hid, List.map_id']
  · exact Option.noConfusion h2

/-- A concrete aggregated record set for the C6/C7 witnesses: one Japan
record, two United States records and one unclassifiable record. -/
def psW6 : List Dict :=
  [[(pstr "name", .vstr (pstr "🇯🇵 A1")), (pstr "server", .vstr (pstr "s1"))],
   [(pstr "name", .vstr (pstr "🇺🇸 B1")), (pstr "server", .vstr (pstr "s2"))],
   [(pstr "name", .vstr (pstr "🇺🇸 B2")), (pstr "server", .vstr (pstr "s3"))],
   [(pstr "name", .vstr (pstr "xx")), (pstr "server", .vstr (pstr "s4"))]]

/-- The country buckets of `psW6`. -/
def cgW6 : List (Str × List Str) :=
  (CountryGrouper.group_by_country (fun _ => none) psW6).getD []

/-- The synthesized group list of `psW6`. -/
def outW6 : List Dict :=
  (ProxyGroupGenerator.generate_groups psW6 cgW6).getD []

set_option maxRecDepth 100000 in
/-- C6 witness: the partition theorem applied to the concrete record set
`psW6`. -/
theorem C6_groups_partition_witness :
    CountryGrouper.group_by_country (fun _ => none) psW6 = some cgW6 ∧
    ProxyGroupGenerator.generate_groups psW6 cgW6 = some outW6 ∧
    List.Perm ((outW6.drop 4).flatMap ProxyGroupGenerator.groupMembers)
      (psW6.map recNameD) :=
  ⟨rfl, rfl,
    (C6_groups_partition (fun _ => none) psW6 cgW6 outW6 rfl rfl).1⟩

set_option maxRecDepth 100000 in
/-- C7 witness: the ordering theorem applied to `psW6` — the United States
group (2 members) precedes Japan and the unknown bucket (1 member each),
which keep first-seen order. -/
theorem C7_groups_sorted_witness :
    ProxyGroupGenerator.generate_groups psW6 cgW6 = some outW6 ∧
    (outW6.drop 4).map ProxyGroupGenerator.groupName =
      ProxyGroupGenerator.sorted_countries cgW6 ∧
    (ProxyGroupGenerator.sorted_countries cgW6).Pairwise
      (fun a b => ProxyGroupGenerator.bucketLen cgW6 b ≤
        ProxyGroupGenerator.bucketLen cgW6 a) ∧
    ProxyGroupGenerator.sorted_countries cgW6 =
      [pstr "🇺🇸 美国", pstr "🇯🇵 日本", pstr "🔰 未知"] :=
  ⟨rfl, (C7_groups_sorted (fun _ => none) psW6 cgW6 outW6 rfl rfl).1,
    (C7_groups_sorted (fun _ => none) psW6 cgW6 outW6 rfl rfl).2.1, rfl⟩

end ClashMerge
